import Mathlib

/-!
Verification of the White Flag bot lifecycle engine (src/index.js).

This file is a shallow embedding of the lifecycle/timer/reconciliation engine
of the Discord bot: the Request/Bounty/Claim data model, the store helpers,
the timer scheduler, the timer fire handlers, the startup reconciliation
sweep, and the interaction handlers that mutate records.

Modelling conventions, mirroring the JavaScript source:
  - Times are millisecond epochs, modelled as Nat.
  - The JSON stores (requests.json, claims.json) are modelled as lists of
    records; object lookup by key is find-first-by-id, and assignment
    `requests[id] = r` is replace-by-id-or-append.  Object.values iteration
    order is list order.
  - JavaScript truthiness on optional numeric fields (`!req.approvedAt`)
    is modelled by jsTruthyNat: absent or 0 is falsy.  Truthiness on
    strings (`a || b`) is modelled by jsOrStr: the empty string is falsy.
  - In-memory timer tables (activeTimeouts, activeBountyTimeouts,
    activeWfAlertTimeouts, activeBountyAlertTimeouts) are modelled by the
    sets of armed record ids; clearTimeout+delete is removal, setTimeout+set
    is insertion.
  - Outbound Discord messages are fire-and-forget notifications; a handler
    run is modelled as also returning the list of notifications it attempts
    to post, under the environment assumption that the configured channels
    are reachable.
  - A timer callback re-reads requests.json when it fires; accordingly the
    fire handlers take the store current at fire time as input, not the
    snapshot captured when the timer was armed.
-/

-- ---------------------------------------------------------------------------
-- Constants (src/index.js lines 147-152)
-- ---------------------------------------------------------------------------

def SEVEN_DAYS_MS : Nat := 7 * 24 * 60 * 60 * 1000

def ONE_DAY_MS : Nat := 24 * 60 * 60 * 1000

def ONE_WEEK_MS : Nat := 7 * 24 * 60 * 60 * 1000

def BOUNTY_REWARD : String := "2,000 tokens"

-- ---------------------------------------------------------------------------
-- JavaScript truthiness helpers
-- ---------------------------------------------------------------------------

/-- Truthiness of an optional numeric field: `undefined` and `0` are falsy. -/
def jsTruthyNat (o : Option Nat) : Bool :=
  match o with
  | none => false
  | some n => decide (n ≠ 0)

/-- JavaScript `a || b` on strings: the empty string is falsy. -/
def jsOrStr (a b : String) : String :=
  if a = "" then b else a

/-- JavaScript `a || b` where `a` is a numeric field that may be 0. -/
def jsOrNat (a b : Nat) : Nat :=
  if a = 0 then b else a

-- ---------------------------------------------------------------------------
-- normalizeTribeName (src/index.js lines 255-260)
--
--   function normalizeTribeName(name) {
--     return String(name || "")
--       .trim()
--       .toLowerCase()
--       .replace(/\\s+/g, " ");
--   }
--
-- Note the doubled backslash in the regex literal: the pattern the regex
-- engine receives is a literal backslash character followed by one or more
-- letters s, NOT the whitespace class \s+.  The replace therefore rewrites
-- every maximal run (one backslash, then one or more s) to a single space
-- and leaves ordinary whitespace untouched.
-- ---------------------------------------------------------------------------

/-- The ASCII whitespace characters relevant to String.prototype.trim. -/
def isJsWs (c : Char) : Bool :=
  c = ' ' || c = '\t' || c = '\n' || c = '\r' || c = '\x0b' || c = '\x0c'

/-- String.prototype.trim: drop whitespace from both ends. -/
def jsTrimList (l : List Char) : List Char :=
  ((l.dropWhile isJsWs).reverse.dropWhile isJsWs).reverse

/-- State of the scanner for the regex replace of the literal pattern
backslash-then-s-run.  `norm` is outside a match, `slash` has consumed a
backslash that may begin a match, `srun` is inside the s-run of a match. -/
inductive RegexSt where
  | norm
  | slash
  | srun
deriving DecidableEq, Repr

/-- Global regex replace of the pattern (literal backslash)(s+) by a single
space, scanning left to right with greedy non-overlapping matches, exactly
as `.replace(/\\s+/g, " ")` behaves in JavaScript. -/
def replBackslashSRun : RegexSt → List Char → List Char
  | RegexSt.norm, [] => []
  | RegexSt.slash, [] => ['\\']
  | RegexSt.srun, [] => []
  | RegexSt.norm, c :: rest =>
    if c = '\\' then replBackslashSRun RegexSt.slash rest
    else c :: replBackslashSRun RegexSt.norm rest
  | RegexSt.slash, c :: rest =>
    if c = 's' then ' ' :: replBackslashSRun RegexSt.srun rest
    else if c = '\\' then '\\' :: replBackslashSRun RegexSt.slash rest
    else '\\' :: c :: replBackslashSRun RegexSt.norm rest
  | RegexSt.srun, c :: rest =>
    if c = 's' then replBackslashSRun RegexSt.srun rest
    else if c = '\\' then replBackslashSRun RegexSt.slash rest
    else c :: replBackslashSRun RegexSt.norm rest

/-- normalizeTribeName from the source: trim, lower-case, then the (doubly
escaped) regex replace.  Lower-casing is per-character, as
String.prototype.toLowerCase acts on the ASCII range. -/
def normalizeTribeName (name : String) : String :=
  String.mk (replBackslashSRun RegexSt.norm ((jsTrimList name.data).map Char.toLower))

/-- One step of collapsing whitespace runs: the Bool records whether the
scanner is inside a whitespace run already represented by a space. -/
def collapseWsGo : Bool → List Char → List Char
  | _, [] => []
  | inRun, c :: rest =>
    if isJsWs c then
      if inRun then collapseWsGo true rest else ' ' :: collapseWsGo true rest
    else c :: collapseWsGo false rest

/-- Modelled from the spec: the tribe-key normalization as the specification
words it ("trimmed, lower-cased, whitespace-collapsed"): leading and trailing
whitespace removed, characters lower-cased, and every internal run of
whitespace collapsed to a single space.  Kept separate from
normalizeTribeName (the code) so the two can be compared. -/
def specNormalizeTribeName (name : String) : String :=
  String.mk (collapseWsGo false ((jsTrimList name.data).map Char.toLower))

-- ---------------------------------------------------------------------------
-- Data model (requests.json / claims.json records)
-- ---------------------------------------------------------------------------

/-- Request status values occurring in src/index.js. -/
inductive Status where
  | pending
  | approved
  | denied
  | expired
  | ended_early
  | bounty_only
deriving DecidableEq, Repr

/-- The bounty sub-record embedded in a request (creation sites:
/bounty add, end-early button handler). -/
structure Bounty where
  active : Bool
  startedAt : Nat
  endsAt : Option Nat
  startedBy : String
  reason : String
  refreshedAt : Option Nat := none
  refreshedBy : Option String := none
  announceChannelId : Option String := none
  announceMessageId : Option String := none
  claimedAt : Option Nat := none
  claimedBy : Option String := none
  claimId : Option String := none
  removedAt : Option Nat := none
  removedBy : Option String := none
  expiredAt : Option Nat := none
deriving DecidableEq, Repr

/-- A request record in requests.json. -/
structure Request where
  id : String
  status : Status
  tribeName : String
  ign : String
  serverType : String
  mapName : String
  requestedBy : String
  requestedAt : Nat
  approvedAt : Option Nat := none
  approvedBy : Option String := none
  deniedAt : Option Nat := none
  deniedBy : Option String := none
  endedEarlyAt : Option Nat := none
  endedEarlyBy : Option String := none
  expiredAt : Option Nat := none
  wfWarnedAt : Option Nat := none
  bountyWarnedAt : Option Nat := none
  bounty : Option Bounty := none
deriving DecidableEq, Repr

/-- Claim status values occurring in src/index.js. -/
inductive ClaimStatus where
  | pending
  | approved
  | denied
deriving DecidableEq, Repr

/-- A claim record in claims.json. -/
structure Claim where
  id : String
  bountyRecordId : String
  tribeName : String
  reward : String
  submittedBy : String
  submittedAt : Nat
  claimantIgn : Option String := none
  bountyTargetIgn : Option String := none
  proof : String
  notes : Option String := none
  status : ClaimStatus
  approvedAt : Option Nat := none
  approvedBy : Option String := none
  deniedAt : Option Nat := none
  deniedBy : Option String := none
deriving DecidableEq, Repr

-- ---------------------------------------------------------------------------
-- Stores: requests.json and claims.json as lists of records
-- ---------------------------------------------------------------------------

abbrev Store := List Request

abbrev Claims := List Claim

/-- `requests[id]` lookup. -/
def findReq (s : Store) (id : String) : Option Request :=
  s.find? (fun r => r.id == id)

/-- `requests[id] = r` assignment: replace the record with this id, or append
when no record has it. -/
def putReq (s : Store) (r : Request) : Store :=
  if s.any (fun x => x.id == r.id) then
    s.map (fun x => if x.id == r.id then r else x)
  else s ++ [r]

/-- `claims[id]` lookup. -/
def findClaim (cs : Claims) (id : String) : Option Claim :=
  cs.find? (fun c => c.id == id)

/-- `claims[id] = c` assignment. -/
def putClaim (cs : Claims) (c : Claim) : Claims :=
  if cs.any (fun x => x.id == c.id) then
    cs.map (fun x => if x.id == c.id then c else x)
  else cs ++ [c]

-- ---------------------------------------------------------------------------
-- Record predicates and tribe lookup helpers (src/index.js lines 245-299, 392-400)
-- ---------------------------------------------------------------------------

/-- isApprovedAndActive: status is approved, approvedAt is a number, and
approvedAt + 7d > now. -/
def isApprovedAndActive (r : Request) (now : Nat) : Bool :=
  decide (r.status = Status.approved) &&
  (match r.approvedAt with
   | some a => decide (a + SEVEN_DAYS_MS > now)
   | none => false)

/-- hasActiveBounty: the bounty exists, is active, endsAt is a number, and
endsAt > now. -/
def hasActiveBounty (r : Request) (now : Nat) : Bool :=
  match r.bounty with
  | some b =>
    b.active &&
    (match b.endsAt with
     | some e => decide (e > now)
     | none => false)
  | none => false

/-- getPendingRequestForUser: first record requested by this user with
pending status. -/
def getPendingRequestForUser (s : Store) (userId : String) : Option Request :=
  s.find? (fun r => r.requestedBy == userId && decide (r.status = Status.pending))

/-- Loop body of getActiveApprovedForTribe: skip the excluded id, skip other
tribes, return the first approved-and-active record. -/
def gaftPred (key : String) (excludeId : Option String) (now : Nat) (r : Request) : Bool :=
  (match excludeId with
   | some e => r.id != e
   | none => true) &&
  (normalizeTribeName r.tribeName == key) &&
  isApprovedAndActive r now

/-- getActiveApprovedForTribe(tribeName, excludeId). -/
def getActiveApprovedForTribe (s : Store) (tribeName : String) (excludeId : Option String)
    (now : Nat) : Option Request :=
  s.find? (gaftPred (normalizeTribeName tribeName) excludeId now)

/-- Loop body of getActiveBountyForTribe. -/
def gabtPred (key : String) (excludeId : Option String) (now : Nat) (r : Request) : Bool :=
  (match excludeId with
   | some e => r.id != e
   | none => true) &&
  (normalizeTribeName r.tribeName == key) &&
  hasActiveBounty r now

/-- getActiveBountyForTribe(tribeName, excludeId). -/
def getActiveBountyForTribe (s : Store) (tribeName : String) (excludeId : Option String)
    (now : Nat) : Option Request :=
  s.find? (gabtPred (normalizeTribeName tribeName) excludeId now)

/-- findActiveBountyByTribe(tribeName): first record of the tribe with an
active bounty. -/
def findActiveBountyByTribe (s : Store) (tribeName : String) (now : Nat) : Option Request :=
  s.find? (fun r =>
    (normalizeTribeName r.tribeName == normalizeTribeName tribeName) && hasActiveBounty r now)

/-- isApprovedAndActiveWithEnds: null unless approved with truthy approvedAt
and an end time still in the future; otherwise that end time. -/
def isApprovedAndActiveWithEnds (r : Request) (now : Nat) : Option Nat :=
  if decide (r.status = Status.approved) && jsTruthyNat r.approvedAt then
    (let endsAt := r.approvedAt.getD 0 + SEVEN_DAYS_MS;
     if endsAt ≤ now then none else some endsAt)
  else none

-- ---------------------------------------------------------------------------
-- Timer scheduler state (the four in-memory timeout maps)
-- ---------------------------------------------------------------------------

/-- The armed delayed actions, one component per timeout map of the source:
activeTimeouts (white-flag expiry), activeWfAlertTimeouts (white-flag 24h
warning), activeBountyTimeouts (bounty expiry), activeBountyAlertTimeouts
(bounty 24h warning).  Each component is the set of armed record ids. -/
structure Timers where
  wfExpiry : List String
  wfWarn : List String
  bountyExpiry : List String
  bountyWarn : List String
deriving DecidableEq, Repr

/-- No timer armed. -/
def noTimers : Timers := ⟨[], [], [], []⟩

/-- setTimeout after clearTimeout of any existing entry: the id becomes
armed (at most one outstanding timer per key). -/
def armT (l : List String) (id : String) : List String :=
  id :: l.filter (fun x => x != id)

/-- clearTimeout plus Map.delete: the id is no longer armed. -/
def cancelT (l : List String) (id : String) : List String :=
  l.filter (fun x => x != id)

/-- scheduleExpiry(requestId): arm the white-flag expiry timer, unless the
record is missing, not approved, or has a falsy approvedAt. -/
def scheduleExpiry (s : Store) (tm : Timers) (id : String) : Timers :=
  match findReq s id with
  | none => tm
  | some r =>
    if decide (r.status = Status.approved) && jsTruthyNat r.approvedAt then
      { tm with wfExpiry := armT tm.wfExpiry id }
    else tm

/-- scheduleBountyExpiry(requestId): arm the bounty expiry timer, unless the
record is missing or has no active bounty. -/
def scheduleBountyExpiry (s : Store) (tm : Timers) (id : String) (now : Nat) : Timers :=
  match findReq s id with
  | none => tm
  | some r =>
    if hasActiveBounty r now then
      { tm with bountyExpiry := armT tm.bountyExpiry id }
    else tm

/-- scheduleWhiteFlagExpiryWarning(requestId): arm the 24h warning timer,
unless the record is not approved-and-active or wfWarnedAt is already
truthy. -/
def scheduleWhiteFlagExpiryWarning (s : Store) (tm : Timers) (id : String) (now : Nat) : Timers :=
  match findReq s id with
  | none => tm
  | some r =>
    match isApprovedAndActiveWithEnds r now with
    | none => tm
    | some _ =>
      if jsTruthyNat r.wfWarnedAt then tm
      else { tm with wfWarn := armT tm.wfWarn id }

/-- scheduleBountyExpiryWarning(requestId): arm the bounty 24h warning timer,
unless the bounty is not active or bountyWarnedAt is already truthy. -/
def scheduleBountyExpiryWarning (s : Store) (tm : Timers) (id : String) (now : Nat) : Timers :=
  match findReq s id with
  | none => tm
  | some r =>
    if !hasActiveBounty r now then tm
    else if jsTruthyNat r.bountyWarnedAt then tm
    else { tm with bountyWarn := armT tm.bountyWarn id }

-- ---------------------------------------------------------------------------
-- Notifications attempted by handlers (fire-and-forget sends)
-- ---------------------------------------------------------------------------

/-- The outbound messages the engine posts, by kind and record id. -/
inductive Notice where
  | wfExpired (id : String)
  | bountyClosed (id : String)
  | wfWarned (id : String)
  | bountyWarned (id : String)
  | bountyIssued (id : String)
  | openSeason (id : String)
  | bountyCanceled (id : String)
  | bountyClaimApproved (id : String)
  | claimTicket (claimId : String)
deriving DecidableEq, Repr

-- ---------------------------------------------------------------------------
-- Timer fire handlers (the setTimeout callbacks)
--
-- Each callback starts by re-reading requests.json; the Store argument is
-- that re-read state, not the snapshot captured when the timer was armed.
-- ---------------------------------------------------------------------------

/-- The guard the white-flag expiry callback re-validates at fire time: the
record still exists and is still approved. -/
def wfExpiryGuard (s : Store) (id : String) : Bool :=
  match findReq s id with
  | some r => decide (r.status = Status.approved)
  | none => false

/-- The white-flag expiry callback (src/index.js lines 359-387): re-read,
re-validate, then mark expired and post the expiry message. -/
def wfExpiryFire (s : Store) (id : String) (now : Nat) : Store × List Notice :=
  match findReq s id with
  | none => (s, [])
  | some r =>
    if decide (r.status = Status.approved) then
      (putReq s { r with status := Status.expired, expiredAt := some now },
       [Notice.wfExpired id])
    else (s, [])

/-- The guard the bounty expiry callback re-validates at fire time: the
record still exists, the bounty is still active, and its end time has
actually passed. -/
def bountyExpiryGuard (s : Store) (id : String) (now : Nat) : Bool :=
  match findReq s id with
  | some r =>
    (match r.bounty with
     | some b =>
       b.active &&
       (match b.endsAt with
        | some e => decide (e ≤ now)
        | none => false)
     | none => false)
  | none => false

/-- The bounty expiry callback (src/index.js lines 412-436): re-read,
re-validate (still active and actually due), then close the bounty and post
the closure message. -/
def bountyExpiryFire (s : Store) (id : String) (now : Nat) : Store × List Notice :=
  match findReq s id with
  | none => (s, [])
  | some r =>
    match r.bounty with
    | none => (s, [])
    | some b =>
      if b.active &&
         (match b.endsAt with
          | some e => decide (e ≤ now)
          | none => false) then
        (putReq s { r with bounty := some { b with active := false, expiredAt := some now } },
         [Notice.bountyClosed id])
      else (s, [])

/-- The white-flag 24h warning callback (src/index.js lines 511-543):
re-read, no-op unless still approved-and-active, not yet warned, and inside
the warning window; otherwise set wfWarnedAt and post the warning. -/
def wfWarnFire (s : Store) (id : String) (now : Nat) : Store × List Notice :=
  match findReq s id with
  | none => (s, [])
  | some r =>
    match isApprovedAndActiveWithEnds r now with
    | none => (s, [])
    | some endsAt2 =>
      if jsTruthyNat r.wfWarnedAt then (s, [])
      else if now < endsAt2 - ONE_DAY_MS || now ≥ endsAt2 then (s, [])
      else (putReq s { r with wfWarnedAt := some now }, [Notice.wfWarned id])

/-- The bounty 24h warning callback (src/index.js lines 565-597): re-read,
no-op unless the bounty is still active, not yet warned, and inside the
warning window; otherwise set bountyWarnedAt and post the warning. -/
def bountyWarnFire (s : Store) (id : String) (now : Nat) : Store × List Notice :=
  match findReq s id with
  | none => (s, [])
  | some r =>
    if !hasActiveBounty r now then (s, [])
    else
      match r.bounty with
      | none => (s, [])
      | some b =>
        (let endsAt2 := b.endsAt.getD 0;
         if jsTruthyNat r.bountyWarnedAt then (s, [])
         else if now < endsAt2 - ONE_DAY_MS || now ≥ endsAt2 then (s, [])
         else (putReq s { r with bountyWarnedAt := some now }, [Notice.bountyWarned id]))

-- ---------------------------------------------------------------------------
-- Startup reconciliation sweep over bounties (src/index.js lines 445-463)
-- ---------------------------------------------------------------------------

/-- Body of the startup loop of expireOverdueBountiesOnStartup: a record
with an active bounty whose end time has passed is closed in place; every
other record is untouched. -/
def sweepOneBounty (now : Nat) (r : Request) : Request :=
  match r.bounty with
  | some b =>
    if b.active &&
       (match b.endsAt with
        | some e => decide (e ≤ now)
        | none => false) then
      { r with bounty := some { b with active := false, expiredAt := some now } }
    else r
  | none => r

/-- expireOverdueBountiesOnStartup: close every overdue active bounty and
persist.  The loop body posts no message, so the notification list is
empty. -/
def expireOverdueBountiesOnStartup (s : Store) (now : Nat) : Store × List Notice :=
  (s.map (sweepOneBounty now), [])

-- ---------------------------------------------------------------------------
-- State machine operations (interaction handlers)
-- ---------------------------------------------------------------------------

/-- Result of submitting a white-flag application (apply modal handler,
src/index.js lines 2053-2095). -/
inductive SubmitOutcome where
  | ok (id : String)
  | validation
  | pendingExists
  | conflictActive (otherId : String)
deriving DecidableEq, Repr

/-- The apply-modal submission handler: required-field validation, then the
duplicate-pending check, then the one-active-white-flag-per-tribe check,
then creation of a pending request.  Field values arrive already trimmed. -/
def submitRequest (s : Store) (user ign tribe mapName serverType fresh : String)
    (now : Nat) : Store × SubmitOutcome :=
  if ign = "" || tribe = "" || mapName = "" then (s, SubmitOutcome.validation)
  else
    match getPendingRequestForUser s user with
    | some _ => (s, SubmitOutcome.pendingExists)
    | none =>
      match getActiveApprovedForTribe s tribe none now with
      | some ex => (s, SubmitOutcome.conflictActive ex.id)
      | none =>
        (putReq s
          { id := fresh, status := Status.pending, tribeName := tribe, ign := ign,
            serverType := serverType, mapName := mapName,
            requestedBy := user, requestedAt := now },
         SubmitOutcome.ok fresh)

/-- Result of the admin approve button (src/index.js lines 1729-1789). -/
inductive ApproveOutcome where
  | approved
  | notFound
  | alreadyStatus (st : Status)
  | conflictActive (otherId : String)
deriving DecidableEq, Repr

/-- The admin approve handler: requires a pending request, re-checks the
one-active-white-flag-per-tribe rule excluding the request being approved,
then sets approved/approvedAt/approvedBy, persists, and arms the expiry and
warning timers. -/
def approveRequest (s : Store) (tm : Timers) (id actor : String) (now : Nat) :
    Store × Timers × ApproveOutcome :=
  match findReq s id with
  | none => (s, tm, ApproveOutcome.notFound)
  | some r =>
    if decide (r.status ≠ Status.pending) then (s, tm, ApproveOutcome.alreadyStatus r.status)
    else
      match getActiveApprovedForTribe s r.tribeName (some id) now with
      | some ex => (s, tm, ApproveOutcome.conflictActive ex.id)
      | none =>
        (let r2 := { r with status := Status.approved, approvedAt := some now,
                            approvedBy := some actor };
         let s2 := putReq s r2;
         let tm2 := scheduleExpiry s2 tm id;
         let tm3 := scheduleWhiteFlagExpiryWarning s2 tm2 id now;
         (s2, tm3, ApproveOutcome.approved))

/-- Result of the admin end-early button (src/index.js lines 1836-1937). -/
inductive EndEarlyOutcome where
  | ended
  | notFound
  | wrongStatus (st : Status)
deriving DecidableEq, Repr

/-- The terminal record the end-early handler persists first: ended_early
with audit fields and a fresh one-week bounty started by the actor. -/
def endedRec (r : Request) (actor : String) (now : Nat) : Request :=
  { r with status := Status.ended_early, endedEarlyAt := some now,
           endedEarlyBy := some actor,
           bounty := some { active := true, startedAt := now,
                            endsAt := some (now + ONE_WEEK_MS), startedBy := actor,
                            reason := "White Flag ended early (Open Season)." } }

/-- The same record after the bounty announcement reference is stored on
the bounty (opaque channel and message references). -/
def endedRecAnn (r : Request) (actor : String) (now : Nat) : Request :=
  { r with status := Status.ended_early, endedEarlyAt := some now,
           endedEarlyBy := some actor,
           bounty := some { active := true, startedAt := now,
                            endsAt := some (now + ONE_WEEK_MS), startedBy := actor,
                            reason := "White Flag ended early (Open Season).",
                            announceChannelId := some "bounty-channel",
                            announceMessageId := some "bounty-msg" } }

/-- The end-early handler: requires an approved request (the refusal reply
carries the current status); cancels the white-flag expiry timeout (only),
sets ended_early with audit fields, attaches a fresh one-week bounty,
persists, arms the bounty timers, posts the Open Season ping plus the bounty
announcement, and stores the announcement reference on the bounty. -/
def endRequestEarly (s : Store) (tm : Timers) (id actor : String) (now : Nat) :
    Store × Timers × List Notice × EndEarlyOutcome :=
  match findReq s id with
  | none => (s, tm, [], EndEarlyOutcome.notFound)
  | some r =>
    if decide (r.status ≠ Status.approved) then (s, tm, [], EndEarlyOutcome.wrongStatus r.status)
    else
      (let tm1 := { tm with wfExpiry := cancelT tm.wfExpiry id };
       let s2 := putReq s (endedRec r actor now);
       let tm2 := scheduleBountyExpiry s2 tm1 id now;
       let tm3 := scheduleBountyExpiryWarning s2 tm2 id now;
       let s3 := putReq s2 (endedRecAnn r actor now);
       (s3, tm3, [Notice.openSeason id, Notice.bountyIssued id], EndEarlyOutcome.ended))

/-- A JavaScript runtime error surfaced by a handler. -/
inductive JsErr where
  | referenceErrorReq
deriving DecidableEq, Repr

instance : DecidableEq (Except JsErr String)
  | Except.error a, Except.error b =>
    if h : a = b then isTrue (h ▸ rfl) else isFalse (fun he => h (Except.error.inj he))
  | Except.error _, Except.ok _ => isFalse (fun he => Except.noConfusion he)
  | Except.ok _, Except.error _ => isFalse (fun he => Except.noConfusion he)
  | Except.ok a, Except.ok b =>
    if h : a = b then isTrue (h ▸ rfl) else isFalse (fun he => h (Except.ok.inj he))

/-- The record the create branch of /bounty add persists: a bounty_only
request with a fresh one-week bounty and no announcement reference. -/
def newBountyRecord (tribe ign server reason actor fresh : String) (now : Nat) : Request :=
  { id := fresh, status := Status.bounty_only, tribeName := tribe,
    ign := jsOrStr ign "N/A", serverType := jsOrStr server "N/A", mapName := "N/A",
    requestedBy := actor, requestedAt := now,
    bounty := some { active := true, startedAt := now,
                     endsAt := some (now + ONE_WEEK_MS), startedBy := actor,
                     reason := jsOrStr reason "Manual bounty created." } }

/-- The all-fields-absent bounty the spread falls back to when a record has
no bounty sub-object (unreachable through the active-bounty lookup). -/
def defaultBounty : Bounty :=
  { active := false, startedAt := 0, endsAt := none, startedBy := "", reason := "" }

/-- The refreshed bounty the refresh branch of /bounty add writes: the old
sub-object spread with a renewed one-week window and refresh audit fields,
falsy old values falling back as the source's short-circuit ors do. -/
def refreshedBounty (b0 : Bounty) (reason actor : String) (now : Nat) : Bounty :=
  { b0 with active := true, startedAt := jsOrNat b0.startedAt now,
            endsAt := some (now + ONE_WEEK_MS),
            startedBy := jsOrStr b0.startedBy actor,
            refreshedAt := some now, refreshedBy := some actor,
            reason := jsOrStr reason (jsOrStr b0.reason "Manual bounty refresh.") }

/-- The record the refresh branch of /bounty add persists: the existing
record with its bounty refreshed in place and optional ign/server updates. -/
def refreshedRec (ex : Request) (ign server reason actor : String) (now : Nat) : Request :=
  { ex with bounty := some (refreshedBounty (ex.bounty.getD defaultBounty) reason actor now),
            ign := if ign ≠ "" then ign else ex.ign,
            serverType := if server ≠ "" then server else ex.serverType }

/-- The /bounty add handler (src/index.js lines 1161-1254).  The refresh
branch extends the existing active bounty in place and re-arms its timers.
The create branch persists a new bounty_only record, arms its timers and
posts the announcement; the next statement of the source reads the
variables req and requestId, which are not bound in this branch, so the
handler throws a ReferenceError before it can store the announcement
reference or send the success reply (the catch-all replies with a generic
failure message instead).  The Except value is that thrown error, or the
id echoed by the success reply. -/
def bountyAdd (s : Store) (tm : Timers) (tribe ign server reason actor fresh : String)
    (now : Nat) : Store × Timers × List Notice × Except JsErr String :=
  match getActiveBountyForTribe s tribe none now with
  | some existing =>
    (let s2 := putReq s (refreshedRec existing ign server reason actor now);
     let tm2 := scheduleBountyExpiry s2 tm existing.id now;
     let tm3 := scheduleBountyExpiryWarning s2 tm2 existing.id now;
     (s2, tm3, [], Except.ok existing.id))
  | none =>
    (let s2 := putReq s (newBountyRecord tribe ign server reason actor fresh now);
     let tm2 := scheduleBountyExpiry s2 tm fresh now;
     let tm3 := scheduleBountyExpiryWarning s2 tm2 fresh now;
     (s2, tm3, [Notice.bountyIssued fresh], Except.error JsErr.referenceErrorReq))

/-- Result of /bounty remove (src/index.js lines 1256-1312). -/
inductive RemoveOutcome where
  | removed
  | missingArgs
  | notFoundActive
deriving DecidableEq, Repr

/-- The /bounty remove handler: resolve the target by id then by tribe,
require an active bounty, cancel the bounty expiry timeout (only), mark the
bounty removed, persist, and announce the cancellation.  Empty option
strings model omitted command options. -/
def removeBounty (s : Store) (tm : Timers) (tribe idArg actor : String) (now : Nat) :
    Store × Timers × List Notice × RemoveOutcome :=
  if tribe = "" && idArg = "" then (s, tm, [], RemoveOutcome.missingArgs)
  else
    (let byId : Option Request := if idArg ≠ "" then findReq s idArg else none;
     let target : Option Request :=
       match byId with
       | some t => some t
       | none => if tribe ≠ "" then getActiveBountyForTribe s tribe none now else none;
     match target with
     | none => (s, tm, [], RemoveOutcome.notFoundActive)
     | some t =>
       match t.bounty with
       | none => (s, tm, [], RemoveOutcome.notFoundActive)
       | some b =>
         if !b.active then (s, tm, [], RemoveOutcome.notFoundActive)
         else
           (let tm1 := { tm with bountyExpiry := cancelT tm.bountyExpiry t.id };
            let t2 := { t with bounty := some { b with active := false, removedAt := some now,
                                                       removedBy := some actor } };
            (putReq s t2, tm1, [Notice.bountyCanceled t.id], RemoveOutcome.removed)))

/-- Result of submitting a bounty claim. -/
inductive SubmitClaimOutcome where
  | ok (claimId : String)
  | notActive
  | missingFields
deriving DecidableEq, Repr

/-- The bounty-claim modal submission handler (src/index.js lines
1945-2028): requires the referenced record to still carry an active bounty,
then files a pending claim and posts the admin review ticket.  The requests
store is not an output: the handler never writes to it (in particular it
takes no lock on the bounty). -/
def submitClaim (s : Store) (cs : Claims) (recordId user ign bountyIgn proofRaw fresh : String)
    (now : Nat) : Claims × List Notice × SubmitClaimOutcome :=
  match findReq s recordId with
  | none => (cs, [], SubmitClaimOutcome.notActive)
  | some target =>
    if !hasActiveBounty target now then (cs, [], SubmitClaimOutcome.notActive)
    else
      (let proof := if proofRaw = "" then "N/A" else proofRaw;
       if ign = "" || bountyIgn = "" then (cs, [], SubmitClaimOutcome.missingFields)
       else
         (putClaim cs
            { id := fresh, bountyRecordId := target.id, tribeName := target.tribeName,
              reward := BOUNTY_REWARD, submittedBy := user, submittedAt := now,
              claimantIgn := some ign, bountyTargetIgn := some bountyIgn, proof := proof,
              status := ClaimStatus.pending },
          [Notice.claimTicket fresh], SubmitClaimOutcome.ok fresh))

/-- The /bounty claim subcommand (src/index.js lines 1094-1157): resolve the
tribe to its first record with an active bounty, then file a pending claim
and post the admin review ticket.  Like the modal handler it never writes
to the requests store. -/
def bountyClaimCmd (s : Store) (cs : Claims) (tribe user proof notes fresh : String)
    (now : Nat) : Claims × List Notice × SubmitClaimOutcome :=
  match findActiveBountyByTribe s tribe now with
  | none => (cs, [], SubmitClaimOutcome.notActive)
  | some target =>
    (putClaim cs
       { id := fresh, bountyRecordId := target.id, tribeName := target.tribeName,
         reward := BOUNTY_REWARD, submittedBy := user, submittedAt := now,
         proof := proof, notes := some notes, status := ClaimStatus.pending },
     [Notice.claimTicket fresh], SubmitClaimOutcome.ok fresh)

/-- Result of adjudicating a claim. -/
inductive ClaimAdjOutcome where
  | done
  | claimNotFound
  | alreadyStatus (st : ClaimStatus)
deriving DecidableEq, Repr

/-- The bounty-claim approve button (src/index.js lines 1449-1585, approve
path): requires a pending claim; marks it approved; then, when the claimed
record still has a bounty sub-record, cancels both the bounty expiry and
bounty warning timeouts, closes the bounty with claim audit fields,
persists, and announces the approved claim. -/
def approveClaim (s : Store) (cs : Claims) (tm : Timers) (claimId actor : String) (now : Nat) :
    Store × Claims × Timers × List Notice × ClaimAdjOutcome :=
  match findClaim cs claimId with
  | none => (s, cs, tm, [], ClaimAdjOutcome.claimNotFound)
  | some c =>
    if decide (c.status ≠ ClaimStatus.pending) then
      (s, cs, tm, [], ClaimAdjOutcome.alreadyStatus c.status)
    else
      (let c2 := { c with status := ClaimStatus.approved, approvedAt := some now,
                          approvedBy := some actor };
       let cs2 := putClaim cs c2;
       match findReq s c.bountyRecordId with
       | none => (s, cs2, tm, [], ClaimAdjOutcome.done)
       | some r =>
         match r.bounty with
         | none => (s, cs2, tm, [], ClaimAdjOutcome.done)
         | some b =>
           (let tm1 := { tm with bountyExpiry := cancelT tm.bountyExpiry r.id,
                                 bountyWarn := cancelT tm.bountyWarn r.id };
            let r2 := { r with bounty := some { b with active := false, claimedAt := some now,
                                                       claimedBy := some actor,
                                                       claimId := some claimId } };
            (putReq s r2, cs2, tm1, [Notice.bountyClaimApproved r.id], ClaimAdjOutcome.done)))

-- ---------------------------------------------------------------------------
-- Operation sequences for the I1 uniqueness invariant (claim C3)
-- ---------------------------------------------------------------------------

/-- The operations quantified over by invariant I1: application submission
and admin approval, each carrying its wall-clock time when run. -/
inductive WfOp where
  | submit (user ign tribe mapName serverType fresh : String)
  | approve (id actor : String)
deriving DecidableEq, Repr

/-- Apply one operation to the requests store at the given time.  Timer
state does not influence the store, so approval runs with any timer table. -/
def applyOp (s : Store) (op : WfOp) (now : Nat) : Store :=
  match op with
  | WfOp.submit user ign tribe mapName serverType fresh =>
    (submitRequest s user ign tribe mapName serverType fresh now).1
  | WfOp.approve id actor => (approveRequest s noTimers id actor now).1

/-- Run a list of timestamped operations left to right. -/
def runOps : Store → List (WfOp × Nat) → Store
  | s, [] => s
  | s, (op, t) :: rest => runOps (applyOp s op t) rest

/-- Invariant I1: at time `now`, no two distinct records of the same
normalized tribe key are both approved and unexpired. -/
def I1At (s : Store) (now : Nat) : Prop :=
  ∀ r1 ∈ s, ∀ r2 ∈ s,
    isApprovedAndActive r1 now = true → isApprovedAndActive r2 now = true →
    normalizeTribeName r1.tribeName = normalizeTribeName r2.tribeName →
    r1.id = r2.id

/-- The operation timestamps are nondecreasing and start no earlier than the
given time. -/
def timesMono : Nat → List (WfOp × Nat) → Prop
  | _, [] => True
  | t, (_, t1) :: rest => t ≤ t1 ∧ timesMono t1 rest

/-- Every operation in the list runs no later than `now`. -/
def timesLE (ops : List (WfOp × Nat)) (now : Nat) : Prop :=
  ∀ p ∈ ops, p.2 ≤ now

-- ---------------------------------------------------------------------------
-- Concrete records used to evaluate the theorems on closed inputs
-- ---------------------------------------------------------------------------

/-- An approved request, one week of protection from t=1000. -/
def demoApproved : Request :=
  { id := "r1", status := Status.approved, tribeName := "Alpha", ign := "SurvivorA",
    serverType := "25x PVP", mapName := "Island", requestedBy := "u1", requestedAt := 100,
    approvedAt := some 1000, approvedBy := some "adm" }

/-- A denied request of another tribe. -/
def demoDenied : Request :=
  { id := "r2", status := Status.denied, tribeName := "Beta", ign := "SurvivorB",
    serverType := "25x PVP", mapName := "Island", requestedBy := "u2", requestedAt := 100,
    deniedAt := some 200, deniedBy := some "adm" }

/-- A bounty-only record with an active bounty ending at t=1000000. -/
def demoBountyRec : Request :=
  { id := "b1", status := Status.bounty_only, tribeName := "Raiders", ign := "N/A",
    serverType := "N/A", mapName := "N/A", requestedBy := "adm", requestedAt := 50,
    bounty := some { active := true, startedAt := 50, endsAt := some 1000000,
                     startedBy := "adm", reason := "Manual bounty created." } }

/-- An active bounty whose 24h warning has already fired. -/
def demoWarnedBountyRec : Request :=
  { id := "b2", status := Status.bounty_only, tribeName := "Rogues", ign := "N/A",
    serverType := "N/A", mapName := "N/A", requestedBy := "adm", requestedAt := 50,
    bountyWarnedAt := some 5,
    bounty := some { active := true, startedAt := 50, endsAt := some 1000000,
                     startedBy := "adm", reason := "Manual bounty created." } }

/-- An active bounty that is already past its end time. -/
def demoOverdueBountyRec : Request :=
  { id := "b3", status := Status.bounty_only, tribeName := "Ghosts", ign := "N/A",
    serverType := "N/A", mapName := "N/A", requestedBy := "adm", requestedAt := 10,
    bounty := some { active := true, startedAt := 10, endsAt := some 500,
                     startedBy := "adm", reason := "Manual bounty created." } }

/-- A pending claim against demoBountyRec. -/
def demoPendingClaim : Claim :=
  { id := "c0", bountyRecordId := "b1", tribeName := "Raiders", reward := BOUNTY_REWARD,
    submittedBy := "u3", submittedAt := 600, proof := "clip", status := ClaimStatus.pending }

/-- Timer tables with every timer of demoApproved and demoBountyRec armed. -/
def demoTimersAll : Timers := ⟨["r1"], ["r1"], ["b1"], ["b1"]⟩

/-- A pending application for the same tribe as demoApproved. -/
def demoPendingAlpha : Request :=
  { id := "p1", status := Status.pending, tribeName := "Alpha", ign := "SurvivorC",
    serverType := "25x PVP", mapName := "Island", requestedBy := "u4", requestedAt := 1500 }

/-- Number of pending claims filed against a given bounty record. -/
def pendingClaimsFor (cs : Claims) (rid : String) : Nat :=
  (cs.filter (fun c => c.bountyRecordId == rid && decide (c.status = ClaimStatus.pending))).length

-- ---------------------------------------------------------------------------
-- Helper lemmas about the store and the timer tables
-- ---------------------------------------------------------------------------

theorem armT_mem (l : List String) (id : String) : id ∈ armT l id := by
  simp [armT]

theorem cancelT_not_mem (l : List String) (id : String) : id ∉ cancelT l id := by
  simp [cancelT, List.mem_filter]

theorem mem_putReq {s : Store} {r y : Request} (hy : y ∈ putReq s r) :
    y = r ∨ (y ∈ s ∧ y.id ≠ r.id) := by
  unfold putReq at hy
  split at hy
  case isTrue h =>
    rw [List.mem_map] at hy
    obtain ⟨x, hx, hfx⟩ := hy
    by_cases hid : x.id = r.id
    · left
      rw [← hfx]
      simp [hid]
    · right
      refine ⟨?_, ?_⟩
      · rw [← hfx]
        simp only [hid, beq_iff_eq, if_false]
        exact hx
      · rw [← hfx]
        simp [hid]
  case isFalse h =>
    rw [List.mem_append] at hy
    rcases hy with hy | hy
    · right
      refine ⟨hy, fun hEq => ?_⟩
      exact h (List.any_eq_true.mpr ⟨y, hy, by simp [hEq]⟩)
    · left
      simpa using hy

theorem findReq_eq_some_mem {s : Store} {id : String} {r : Request}
    (h : findReq s id = some r) : r ∈ s ∧ r.id = id := by
  unfold findReq at h
  refine ⟨List.mem_of_find?_eq_some h, ?_⟩
  have h2 := List.find?_some h
  simpa using h2

theorem any_id_of_findReq_isSome {s : Store} {id : String} (h : (findReq s id).isSome) :
    s.any (fun x => x.id == id) = true := by
  unfold findReq at h
  cases hf : s.find? (fun r => r.id == id) with
  | none => rw [hf] at h; simp at h
  | some r =>
    have hp := List.find?_some hf
    exact List.any_eq_true.mpr ⟨r, List.mem_of_find?_eq_some hf, hp⟩

theorem findReq_map_put {s : Store} {id : String} {r2 : Request}
    (h : (findReq s id).isSome) (h2 : r2.id = id) :
    (s.map (fun x => if x.id == r2.id then r2 else x)).find? (fun r => r.id == id) = some r2 := by
  induction s with
  | nil => unfold findReq at h; simp at h
  | cons x xs ih =>
    by_cases hx : x.id = id
    · have hb : (x.id == r2.id) = true := by simp [hx, h2]
      rw [List.map_cons, if_pos hb]
      exact List.find?_cons_of_pos _ (by simp [h2])
    · have hb : (x.id == r2.id) = false := by simp [h2, hx]
      rw [List.map_cons, if_neg (by simp [hb])]
      rw [List.find?_cons_of_neg _ (by simp [hx])]
      apply ih
      unfold findReq at h
      rwa [List.find?_cons_of_neg _ (by simp [hx])] at h

theorem findReq_putReq_self {s : Store} {id : String} {r2 : Request}
    (h : (findReq s id).isSome) (h2 : r2.id = id) :
    findReq (putReq s r2) id = some r2 := by
  unfold putReq
  rw [if_pos (by rw [h2]; exact any_id_of_findReq_isSome h)]
  exact findReq_map_put h h2

theorem putReq_of_fresh {s : Store} {r : Request} (h : ∀ x ∈ s, x.id ≠ r.id) :
    putReq s r = s ++ [r] := by
  unfold putReq
  rw [if_neg]
  intro hAny
  obtain ⟨x, hx, hxe⟩ := List.any_eq_true.mp hAny
  exact h x hx (by simpa using hxe)

theorem findReq_append_fresh {s : Store} {r : Request} (h : ∀ x ∈ s, x.id ≠ r.id) :
    findReq (s ++ [r]) r.id = some r := by
  induction s with
  | nil => unfold findReq; exact List.find?_cons_of_pos _ (by simp)
  | cons x xs ih =>
    have hx := h x (List.mem_cons_self x xs)
    unfold findReq
    rw [List.cons_append, List.find?_cons_of_neg _ (by simp [hx])]
    exact ih fun y hy => h y (List.mem_cons_of_mem x hy)

theorem findReq_map_of_id {f : Request → Request} (hf : ∀ r, (f r).id = r.id)
    (s : Store) (id : String) : findReq (s.map f) id = (findReq s id).map f := by
  induction s with
  | nil => rfl
  | cons x xs ih =>
    unfold findReq at ih ⊢
    by_cases hx : x.id = id
    · rw [List.map_cons, List.find?_cons_of_pos _ (by simp [hf, hx]),
        List.find?_cons_of_pos _ (by simp [hx])]
      rfl
    · rw [List.map_cons, List.find?_cons_of_neg _ (by simp [hf, hx]),
        List.find?_cons_of_neg _ (by simp [hx])]
      exact ih

theorem isApprovedAndActive_mono {r : Request} {n n' : Nat} (h : n ≤ n')
    (ha : isApprovedAndActive r n' = true) : isApprovedAndActive r n = true := by
  unfold isApprovedAndActive at ha ⊢
  cases hA : r.approvedAt with
  | none => simp [hA] at ha
  | some a =>
    simp only [hA, Bool.and_eq_true, decide_eq_true_eq] at ha ⊢
    exact ⟨ha.1, by omega⟩

theorem I1At_mono {s : Store} {t n : Nat} (h : I1At s t) (htn : t ≤ n) : I1At s n := by
  intro r1 h1 r2 h2 a1 a2 hk
  exact h r1 h1 r2 h2 (isApprovedAndActive_mono htn a1) (isApprovedAndActive_mono htn a2) hk

theorem scheduleExpiry_other_fields (s : Store) (tm : Timers) (id : String) :
    (scheduleExpiry s tm id).wfWarn = tm.wfWarn ∧
    (scheduleExpiry s tm id).bountyExpiry = tm.bountyExpiry ∧
    (scheduleExpiry s tm id).bountyWarn = tm.bountyWarn := by
  unfold scheduleExpiry
  cases findReq s id with
  | none => exact ⟨rfl, rfl, rfl⟩
  | some r =>
    dsimp only
    by_cases hc : (decide (r.status = Status.approved) && jsTruthyNat r.approvedAt) = true
    · simp [hc]
    · simp [hc]

theorem scheduleBountyExpiry_other_fields (s : Store) (tm : Timers) (id : String) (now : Nat) :
    (scheduleBountyExpiry s tm id now).wfExpiry = tm.wfExpiry ∧
    (scheduleBountyExpiry s tm id now).wfWarn = tm.wfWarn ∧
    (scheduleBountyExpiry s tm id now).bountyWarn = tm.bountyWarn := by
  unfold scheduleBountyExpiry
  cases findReq s id with
  | none => exact ⟨rfl, rfl, rfl⟩
  | some r =>
    dsimp only
    by_cases hc : hasActiveBounty r now = true
    · simp [hc]
    · simp [hc]

theorem scheduleWhiteFlagExpiryWarning_other_fields (s : Store) (tm : Timers) (id : String)
    (now : Nat) :
    (scheduleWhiteFlagExpiryWarning s tm id now).wfExpiry = tm.wfExpiry ∧
    (scheduleWhiteFlagExpiryWarning s tm id now).bountyExpiry = tm.bountyExpiry ∧
    (scheduleWhiteFlagExpiryWarning s tm id now).bountyWarn = tm.bountyWarn := by
  unfold scheduleWhiteFlagExpiryWarning
  cases findReq s id with
  | none => exact ⟨rfl, rfl, rfl⟩
  | some r =>
    dsimp only
    cases isApprovedAndActiveWithEnds r now with
    | none => exact ⟨rfl, rfl, rfl⟩
    | some e =>
      by_cases hc : jsTruthyNat r.wfWarnedAt = true
      · simp [hc]
      · simp [hc]

theorem scheduleBountyExpiryWarning_other_fields (s : Store) (tm : Timers) (id : String)
    (now : Nat) :
    (scheduleBountyExpiryWarning s tm id now).wfExpiry = tm.wfExpiry ∧
    (scheduleBountyExpiryWarning s tm id now).wfWarn = tm.wfWarn ∧
    (scheduleBountyExpiryWarning s tm id now).bountyExpiry = tm.bountyExpiry := by
  unfold scheduleBountyExpiryWarning
  cases findReq s id with
  | none => exact ⟨rfl, rfl, rfl⟩
  | some r =>
    dsimp only
    by_cases hb : hasActiveBounty r now = true
    · by_cases hw : jsTruthyNat r.bountyWarnedAt = true
      · simp [hb, hw]
      · simp [hb, hw]
    · simp [hb]

theorem scheduleBountyExpiry_arms {s : Store} {tm : Timers} {id : String} {now : Nat}
    {r : Request} (hf : findReq s id = some r) (hb : hasActiveBounty r now = true) :
    (scheduleBountyExpiry s tm id now).bountyExpiry = armT tm.bountyExpiry id := by
  unfold scheduleBountyExpiry
  rw [hf]
  dsimp only
  simp [hb]

theorem scheduleBountyExpiryWarning_arms {s : Store} {tm : Timers} {id : String} {now : Nat}
    {r : Request} (hf : findReq s id = some r) (hb : hasActiveBounty r now = true)
    (hw : jsTruthyNat r.bountyWarnedAt = false) :
    (scheduleBountyExpiryWarning s tm id now).bountyWarn = armT tm.bountyWarn id := by
  unfold scheduleBountyExpiryWarning
  rw [hf]
  dsimp only
  simp [hb, hw]

theorem scheduleBountyExpiryWarning_skips_warned {s : Store} {tm : Timers} {id : String}
    {now : Nat} {r : Request} (hf : findReq s id = some r)
    (hw : jsTruthyNat r.bountyWarnedAt = true) :
    scheduleBountyExpiryWarning s tm id now = tm := by
  unfold scheduleBountyExpiryWarning
  rw [hf]
  dsimp only
  by_cases hb : hasActiveBounty r now = true
  · simp [hb, hw]
  · simp [hb]

theorem scheduleWhiteFlagExpiryWarning_skips_warned {s : Store} {tm : Timers} {id : String}
    {now : Nat} {r : Request} (hf : findReq s id = some r)
    (hw : jsTruthyNat r.wfWarnedAt = true) :
    scheduleWhiteFlagExpiryWarning s tm id now = tm := by
  unfold scheduleWhiteFlagExpiryWarning
  rw [hf]
  dsimp only
  cases isApprovedAndActiveWithEnds r now with
  | none => rfl
  | some e => simp [hw]

theorem wfWarnFire_noop_of_warned {s : Store} {id : String} {now : Nat} {r : Request}
    (hf : findReq s id = some r) (hw : jsTruthyNat r.wfWarnedAt = true) :
    wfWarnFire s id now = (s, []) := by
  unfold wfWarnFire
  rw [hf]
  dsimp only
  cases isApprovedAndActiveWithEnds r now with
  | none => rfl
  | some e => simp [hw]

theorem bountyWarnFire_noop_of_warned {s : Store} {id : String} {now : Nat} {r : Request}
    (hf : findReq s id = some r) (hw : jsTruthyNat r.bountyWarnedAt = true) :
    bountyWarnFire s id now = (s, []) := by
  unfold bountyWarnFire
  rw [hf]
  dsimp only
  by_cases hb : hasActiveBounty r now = true
  · rw [if_neg (by simp [hb])]
    cases r.bounty with
    | none => rfl
    | some b => simp [hw]
  · rw [if_pos (by simp [hb])]

theorem submitRequest_preserves_I1At {s : Store} {user ign tribe mapName serverType fresh : String}
    {now t : Nat} (h : I1At s t) (ht : t ≤ now) :
    I1At ((submitRequest s user ign tribe mapName serverType fresh now).1) now := by
  have hs := I1At_mono h ht
  unfold submitRequest
  split
  · exact hs
  · cases getPendingRequestForUser s user with
    | some p => exact hs
    | none =>
      cases getActiveApprovedForTribe s tribe none now with
      | some ex => exact hs
      | none =>
        dsimp only
        intro r1 h1 r2 h2 a1 a2 hk
        rcases mem_putReq h1 with rfl | ⟨h1s, _⟩
        · simp [isApprovedAndActive] at a1
        · rcases mem_putReq h2 with rfl | ⟨h2s, _⟩
          · simp [isApprovedAndActive] at a2
          · exact hs r1 h1s r2 h2s a1 a2 hk

theorem approveRequest_preserves_I1At {s : Store} {id actor : String} {now t : Nat}
    (h : I1At s t) (ht : t ≤ now) :
    I1At ((approveRequest s noTimers id actor now).1) now := by
  have hs := I1At_mono h ht
  unfold approveRequest
  cases hf : findReq s id with
  | none => exact hs
  | some r =>
    dsimp only
    split
    · exact hs
    case isFalse hpend =>
      cases hg : getActiveApprovedForTribe s r.tribeName (some id) now with
      | some ex => exact hs
      | none =>
        dsimp only
        obtain ⟨hrmem, hrid⟩ := findReq_eq_some_mem hf
        have hnone : ∀ x ∈ s,
            gaftPred (normalizeTribeName r.tribeName) (some id) now x = false := by
          unfold getActiveApprovedForTribe at hg
          rw [List.find?_eq_none] at hg
          intro x hx
          exact Bool.not_eq_true _ ▸ hg x hx
        intro y1 hy1 y2 hy2 a1 a2 hk
        rcases mem_putReq hy1 with rfl | ⟨h1s, h1id⟩
        · rcases mem_putReq hy2 with rfl | ⟨h2s, h2id⟩
          · rfl
          · exfalso
            have hy2id : y2.id ≠ id := by simpa [hrid] using h2id
            have htrue : gaftPred (normalizeTribeName r.tribeName) (some id) now y2 = true := by
              unfold gaftPred
              dsimp only
              rw [Bool.and_eq_true, Bool.and_eq_true]
              refine ⟨⟨?_, ?_⟩, a2⟩
              · simp [bne_iff_ne, hy2id]
              · rw [beq_iff_eq]
                simpa using hk.symm
            have hfalse := hnone y2 h2s
            rw [htrue] at hfalse
            simp at hfalse
        · rcases mem_putReq hy2 with rfl | ⟨h2s, h2id⟩
          · exfalso
            have hy1id : y1.id ≠ id := by simpa [hrid] using h1id
            have htrue : gaftPred (normalizeTribeName r.tribeName) (some id) now y1 = true := by
              unfold gaftPred
              dsimp only
              rw [Bool.and_eq_true, Bool.and_eq_true]
              refine ⟨⟨?_, ?_⟩, a1⟩
              · simp [bne_iff_ne, hy1id]
              · rw [beq_iff_eq]
                simpa using hk
            have hfalse := hnone y1 h1s
            rw [htrue] at hfalse
            simp at hfalse
          · exact hs y1 h1s y2 h2s a1 a2 hk

theorem applyOp_preserves_I1At {s : Store} {t t1 : Nat} {op : WfOp}
    (h : I1At s t) (ht : t ≤ t1) : I1At (applyOp s op t1) t1 := by
  cases op with
  | submit user ign tribe mapName serverType fresh =>
    exact submitRequest_preserves_I1At h ht
  | approve id actor => exact approveRequest_preserves_I1At h ht

theorem runOps_preserves_I1At {now : Nat} :
    ∀ (ops : List (WfOp × Nat)) (s : Store) (t : Nat),
      I1At s t → timesMono t ops → t ≤ now → timesLE ops now →
      I1At (runOps s ops) now := by
  intro ops
  induction ops with
  | nil =>
    intro s t h _ ht _
    exact I1At_mono h ht
  | cons p rest ih =>
    intro s t h hm ht hle
    obtain ⟨op, t1⟩ := p
    have h1 : I1At (applyOp s op t1) t1 := applyOp_preserves_I1At h hm.1
    exact ih (applyOp s op t1) t1 h1 hm.2 (hle (op, t1) (List.mem_cons_self _ _))
      (fun q hq => hle q (List.mem_cons_of_mem _ hq))

-- ---------------------------------------------------------------------------
-- Claim C1
-- ---------------------------------------------------------------------------

/-- C1: when an armed expiry timer fires (white-flag expiry, bounty expiry),
the handler re-reads the record from persistent storage — the fire handlers
take the freshly re-read store as their input — and re-validates the guard
that justified the timer: the request is still approved, respectively the
bounty is still active and its end time has actually passed.  Whenever that
guard no longer holds at fire time, the handler changes no state and posts
no notification. -/
theorem c1_fire_handlers_revalidate :
    (∀ (s : Store) (id : String) (t : Nat),
      wfExpiryGuard s id = false → wfExpiryFire s id t = (s, [])) ∧
    (∀ (s : Store) (id : String) (t : Nat),
      bountyExpiryGuard s id t = false → bountyExpiryFire s id t = (s, [])) := by
  constructor
  · intro s id t hg
    unfold wfExpiryGuard at hg
    unfold wfExpiryFire
    cases hf : findReq s id with
    | none => rfl
    | some r =>
      rw [hf] at hg
      dsimp only at hg
      dsimp only
      simp [hg]
  · intro s id t hg
    unfold bountyExpiryGuard at hg
    unfold bountyExpiryFire
    cases hf : findReq s id with
    | none => rfl
    | some r =>
      rw [hf] at hg
      dsimp only at hg
      dsimp only
      cases hb : r.bounty with
      | none => rfl
      | some b =>
        rw [hb] at hg
        dsimp only at hg
        simp [hg]

/-- C1 witness: a denied record is not expired by a stale white-flag timer,
and a bounty timer that fires before the bounty is actually due (end time
1000000, fire time 600) is a no-op. -/
theorem c1_fire_handlers_revalidate_witness :
    wfExpiryFire [demoDenied] "r2" 999999999 = ([demoDenied], []) ∧
    bountyExpiryFire [demoBountyRec] "b1" 600 = ([demoBountyRec], []) :=
  ⟨c1_fire_handlers_revalidate.1 [demoDenied] "r2" 999999999 (by decide),
   c1_fire_handlers_revalidate.2 [demoBountyRec] "b1" 600 (by decide)⟩

-- ---------------------------------------------------------------------------
-- Claim C9
-- ---------------------------------------------------------------------------

/-- C9: the claim says normalizeTribeName trims, lower-cases, and collapses
every internal whitespace run to a single space, so names differing only in
whitespace get the same key.  The code disagrees: its regex literal is
doubly escaped, so it replaces runs of (literal backslash)(s...) and leaves
internal whitespace intact; two names differing in internal whitespace keep
different keys.  This theorem evaluates the code and the spec-modelled
normalizer on the failing inputs. -/
theorem c9_normalize_keeps_inner_whitespace :
    normalizeTribeName "  Tribe  ALPHA " = "tribe  alpha" ∧
    normalizeTribeName "Tribe Alpha" = "tribe alpha" ∧
    normalizeTribeName "Tribe  ALPHA" ≠ normalizeTribeName "Tribe Alpha" ∧
    normalizeTribeName "a\\sssb" = "a b" ∧
    specNormalizeTribeName "  Tribe  ALPHA " = "tribe alpha" ∧
    specNormalizeTribeName "Tribe  ALPHA" = specNormalizeTribeName "Tribe Alpha" := by
  refine ⟨?_, ?_, ?_, ?_, ?_, ?_⟩ <;> decide

-- ---------------------------------------------------------------------------
-- Claim C7
-- ---------------------------------------------------------------------------

theorem sweepOneBounty_id (now : Nat) (r : Request) : (sweepOneBounty now r).id = r.id := by
  unfold sweepOneBounty
  cases r.bounty with
  | none => rfl
  | some b =>
    dsimp only
    split
    · rfl
    · rfl

/-- C7 amended: during the startup reconciliation sweep, every record with
an active bounty whose end time has passed is closed in place
(active := false, expiredAt := now) and the change is persisted, but no
bounty-closure notification is emitted (the loop body posts nothing). -/
theorem c7_sweep_closes_overdue_silently (s : Store) (now : Nat) :
    (expireOverdueBountiesOnStartup s now).2 = [] ∧
    (∀ id, findReq (expireOverdueBountiesOnStartup s now).1 id
        = (findReq s id).map (sweepOneBounty now)) ∧
    (∀ (r : Request) (b : Bounty), r.bounty = some b → b.active = true →
      (∃ e, b.endsAt = some e ∧ e ≤ now) →
      sweepOneBounty now r
        = { r with bounty := some { b with active := false, expiredAt := some now } }) := by
  refine ⟨rfl, ?_, ?_⟩
  · intro id
    exact findReq_map_of_id (sweepOneBounty_id now) s id
  · rintro r b hb hact ⟨e, he, hle⟩
    unfold sweepOneBounty
    rw [hb]
    dsimp only
    rw [if_pos]
    rw [hact, he]
    simp [hle]

/-- C7 witness: the amended theorem applied to a store holding one record
with an active bounty overdue at sweep time 1000. -/
theorem c7_sweep_closes_overdue_silently_witness :
    sweepOneBounty 1000 demoOverdueBountyRec
      = { demoOverdueBountyRec with
            bounty := some { active := false, startedAt := 10, endsAt := some 500,
                             startedBy := "adm", reason := "Manual bounty created.",
                             expiredAt := some 1000 } } :=
  (c7_sweep_closes_overdue_silently [demoOverdueBountyRec] 1000).2.2 demoOverdueBountyRec
    { active := true, startedAt := 10, endsAt := some 500, startedBy := "adm",
      reason := "Manual bounty created." }
    (by decide) (by decide) ⟨500, by decide, by decide⟩

/-- C7 counterexample to the claim as stated: sweeping a store with one
overdue active bounty transitions the record (persisted as claimed) but the
sweep emits no notification at all, contradicting the claimed emission of
the bounty-closure notification. -/
theorem c7_sweep_counterexample :
    expireOverdueBountiesOnStartup [demoOverdueBountyRec] 1000
      = ([{ demoOverdueBountyRec with
              bounty := some { active := false, startedAt := 10, endsAt := some 500,
                               startedBy := "adm", reason := "Manual bounty created.",
                               expiredAt := some 1000 } }], []) := by
  decide

-- ---------------------------------------------------------------------------
-- Claim C3
-- ---------------------------------------------------------------------------

/-- C3: no two records of the same normalized tribe key are ever both
approved and unexpired.  Submission is blocked when such a record exists
(the conflict reply names it), approval re-checks the same condition
excluding the request being approved and fails with the conflict reply when
it holds, and every sequence of submit/approve operations run at
nondecreasing times preserves invariant I1 at all later times. -/
theorem c3_active_whiteflag_uniqueness :
    (∀ (s : Store) (user ign tribe mapName serverType fresh : String) (now : Nat)
       (ex : Request),
      ign ≠ "" → tribe ≠ "" → mapName ≠ "" →
      getPendingRequestForUser s user = none →
      getActiveApprovedForTribe s tribe none now = some ex →
      submitRequest s user ign tribe mapName serverType fresh now
        = (s, SubmitOutcome.conflictActive ex.id)) ∧
    (∀ (s : Store) (tm : Timers) (id actor : String) (now : Nat) (r ex : Request),
      findReq s id = some r → r.status = Status.pending →
      getActiveApprovedForTribe s r.tribeName (some id) now = some ex →
      approveRequest s tm id actor now = (s, tm, ApproveOutcome.conflictActive ex.id)) ∧
    (∀ (ops : List (WfOp × Nat)) (s : Store) (t now : Nat),
      I1At s t → timesMono t ops → t ≤ now → timesLE ops now →
      I1At (runOps s ops) now) := by
  refine ⟨?_, ?_, ?_⟩
  · intro s user ign tribe mapName serverType fresh now ex h1 h2 h3 hp hg
    unfold submitRequest
    rw [if_neg (by simp [h1, h2, h3]), hp]
    dsimp only
    rw [hg]
  · intro s tm id actor now r ex hf hst hg
    unfold approveRequest
    rw [hf]
    dsimp only
    rw [if_neg (by simp [hst]), hg]
  · intro ops s t now h hm ht hle
    exact runOps_preserves_I1At ops s t h hm ht hle

/-- C3 witness: a submission for tribe Alpha while r1 is approved and
unexpired is refused naming r1; approving the pending p1 for Alpha is
refused naming r1; and a fresh submit-then-approve run from the empty store
satisfies I1 afterwards. -/
theorem c3_active_whiteflag_uniqueness_witness :
    submitRequest [demoApproved] "u9" "IGN9" "Alpha" "Island" "25x PVP" "r9" 2000
      = ([demoApproved], SubmitOutcome.conflictActive "r1") ∧
    approveRequest [demoApproved, demoPendingAlpha] noTimers "p1" "adm" 2000
      = ([demoApproved, demoPendingAlpha], noTimers, ApproveOutcome.conflictActive "r1") ∧
    I1At (runOps []
      [(WfOp.submit "u1" "IGN1" "Alpha" "Island" "25x PVP" "n1", 10),
       (WfOp.approve "n1" "adm", 20)]) 500 := by
  refine ⟨?_, ?_, ?_⟩
  · exact c3_active_whiteflag_uniqueness.1 [demoApproved] "u9" "IGN9" "Alpha" "Island"
      "25x PVP" "r9" 2000 demoApproved (by decide) (by decide) (by decide) (by decide)
      (by decide)
  · exact c3_active_whiteflag_uniqueness.2.1 [demoApproved, demoPendingAlpha] noTimers "p1"
      "adm" 2000 demoPendingAlpha demoApproved (by decide) (by decide) (by decide)
  · exact c3_active_whiteflag_uniqueness.2.2
      [(WfOp.submit "u1" "IGN1" "Alpha" "Island" "25x PVP" "n1", 10),
       (WfOp.approve "n1" "adm", 20)] [] 0 500 (by simp [I1At])
      ⟨by norm_num, by norm_num, trivial⟩ (by norm_num) (by simp [timesLE])

-- ---------------------------------------------------------------------------
-- Claim C8
-- ---------------------------------------------------------------------------

/-- C8: the 24-hour pre-expiry warnings are one-shot, for white flags and
for bounties alike.  Firing the warning handler inside its window sets the
warned-at marker and posts exactly one warning, and a second fire of the
same handler at any later time changes nothing and posts nothing (the
marker is re-checked against the re-read store); re-arming the warning
timer for a record whose marker is already set leaves the timer tables
unchanged, so the warning can never re-fire. -/
theorem c8_warning_one_shot :
    (∀ (s : Store) (id : String) (t : Nat) (r : Request) (a : Nat),
      findReq s id = some r → r.status = Status.approved → r.approvedAt = some a →
      0 < a → jsTruthyNat r.wfWarnedAt = false →
      a + SEVEN_DAYS_MS - ONE_DAY_MS ≤ t → t < a + SEVEN_DAYS_MS →
      wfWarnFire s id t
        = (putReq s { r with wfWarnedAt := some t }, [Notice.wfWarned id]) ∧
      ∀ t2, wfWarnFire (putReq s { r with wfWarnedAt := some t }) id t2
        = (putReq s { r with wfWarnedAt := some t }, [])) ∧
    (∀ (s : Store) (tm : Timers) (id : String) (now : Nat) (r : Request),
      findReq s id = some r → jsTruthyNat r.wfWarnedAt = true →
      scheduleWhiteFlagExpiryWarning s tm id now = tm) ∧
    (∀ (s : Store) (id : String) (t : Nat) (r : Request) (b : Bounty) (e : Nat),
      findReq s id = some r → r.bounty = some b → b.active = true → b.endsAt = some e →
      e - ONE_DAY_MS ≤ t → t < e → 0 < t → jsTruthyNat r.bountyWarnedAt = false →
      bountyWarnFire s id t
        = (putReq s { r with bountyWarnedAt := some t }, [Notice.bountyWarned id]) ∧
      ∀ t2, bountyWarnFire (putReq s { r with bountyWarnedAt := some t }) id t2
        = (putReq s { r with bountyWarnedAt := some t }, [])) ∧
    (∀ (s : Store) (tm : Timers) (id : String) (now : Nat) (r : Request),
      findReq s id = some r → jsTruthyNat r.bountyWarnedAt = true →
      scheduleBountyExpiryWarning s tm id now = tm) := by
  refine ⟨?_, ?_, ?_, ?_⟩
  · intro s id t r a hf hst ha ha0 hw hwin1 hwin2
    have hid := (findReq_eq_some_mem hf).2
    have h7 : SEVEN_DAYS_MS = 604800000 := by norm_num [SEVEN_DAYS_MS]
    have h1 : ONE_DAY_MS = 86400000 := by norm_num [ONE_DAY_MS]
    have htr : (decide (r.status = Status.approved) && jsTruthyNat r.approvedAt) = true := by
      rw [hst, ha]
      simp [jsTruthyNat]
      omega
    have hEnds : isApprovedAndActiveWithEnds r t = some (a + SEVEN_DAYS_MS) := by
      unfold isApprovedAndActiveWithEnds
      rw [if_pos htr, ha]
      simp only [Option.getD_some]
      rw [if_neg (by omega)]
    constructor
    · unfold wfWarnFire
      rw [hf]
      dsimp only
      rw [hEnds]
      dsimp only
      rw [if_neg (by simp [hw])]
      rw [if_neg (by
        simp only [Bool.or_eq_true, decide_eq_true_eq, not_or, not_lt, ge_iff_le, not_le]
        omega)]
    · intro t2
      have hSome : (findReq s id).isSome := by rw [hf]; rfl
      have hf2 : findReq (putReq s { r with wfWarnedAt := some t }) id
          = some { r with wfWarnedAt := some t } :=
        findReq_putReq_self hSome (by simpa using hid)
      exact wfWarnFire_noop_of_warned hf2 (by
        simp only [jsTruthyNat, decide_eq_true_eq]
        omega)
  · intro s tm id now r hf hw
    exact scheduleWhiteFlagExpiryWarning_skips_warned hf hw
  · intro s id t r b e hf hb hact he hwin1 hwin2 ht0 hw
    have hid := (findReq_eq_some_mem hf).2
    have hab : hasActiveBounty r t = true := by
      unfold hasActiveBounty
      rw [hb]
      dsimp only
      rw [he]
      dsimp only
      simp [hact]
      omega
    constructor
    · unfold bountyWarnFire
      rw [hf]
      dsimp only
      rw [if_neg (by simp [hab])]
      rw [hb]
      dsimp only
      rw [he]
      simp only [Option.getD_some]
      rw [if_neg (by simp [hw])]
      rw [if_neg (by
        simp only [Bool.or_eq_true, decide_eq_true_eq, not_or, not_lt, ge_iff_le, not_le]
        omega)]
    · intro t2
      have hSome : (findReq s id).isSome := by rw [hf]; rfl
      have hf2 : findReq (putReq s { r with bountyWarnedAt := some t }) id
          = some { r with bountyWarnedAt := some t } :=
        findReq_putReq_self hSome (by simpa using hid)
      exact bountyWarnFire_noop_of_warned hf2 (by
        simp only [jsTruthyNat, decide_eq_true_eq]
        omega)
  · intro s tm id now r hf hw
    exact scheduleBountyExpiryWarning_skips_warned hf hw

/-- C8 witness: double-firing the white-flag warning for r1 inside its
window warns once then no-ops, re-arming the warned record changes no
timers, and the same holds for the bounty warning of b1 and the already
warned b2. -/
theorem c8_warning_one_shot_witness :
    (wfWarnFire [demoApproved] "r1" 520000000
      = (putReq [demoApproved] { demoApproved with wfWarnedAt := some 520000000 },
         [Notice.wfWarned "r1"]) ∧
     wfWarnFire (putReq [demoApproved] { demoApproved with wfWarnedAt := some 520000000 })
        "r1" 520000001
      = (putReq [demoApproved] { demoApproved with wfWarnedAt := some 520000000 }, [])) ∧
    scheduleWhiteFlagExpiryWarning
        (putReq [demoApproved] { demoApproved with wfWarnedAt := some 520000000 })
        noTimers "r1" 520000002 = noTimers ∧
    (bountyWarnFire [demoBountyRec] "b1" 999999
      = (putReq [demoBountyRec] { demoBountyRec with bountyWarnedAt := some 999999 },
         [Notice.bountyWarned "b1"]) ∧
     bountyWarnFire (putReq [demoBountyRec] { demoBountyRec with bountyWarnedAt := some 999999 })
        "b1" 999999
      = (putReq [demoBountyRec] { demoBountyRec with bountyWarnedAt := some 999999 }, [])) ∧
    scheduleBountyExpiryWarning [demoWarnedBountyRec] noTimers "b2" 100 = noTimers := by
  refine ⟨⟨?_, ?_⟩, ?_, ⟨?_, ?_⟩, ?_⟩
  · exact (c8_warning_one_shot.1 [demoApproved] "r1" 520000000 demoApproved 1000 (by decide)
      (by decide) (by decide) (by decide) (by decide) (by decide) (by decide)).1
  · exact (c8_warning_one_shot.1 [demoApproved] "r1" 520000000 demoApproved 1000 (by decide)
      (by decide) (by decide) (by decide) (by decide) (by decide) (by decide)).2 520000001
  · exact c8_warning_one_shot.2.1
      (putReq [demoApproved] { demoApproved with wfWarnedAt := some 520000000 }) noTimers
      "r1" 520000002 { demoApproved with wfWarnedAt := some 520000000 } (by decide) (by decide)
  · exact (c8_warning_one_shot.2.2.1 [demoBountyRec] "b1" 999999 demoBountyRec
      { active := true, startedAt := 50, endsAt := some 1000000, startedBy := "adm",
        reason := "Manual bounty created." } 1000000 (by decide) (by decide) (by decide)
      (by decide) (by decide) (by decide) (by decide) (by decide)).1
  · exact (c8_warning_one_shot.2.2.1 [demoBountyRec] "b1" 999999 demoBountyRec
      { active := true, startedAt := 50, endsAt := some 1000000, startedBy := "adm",
        reason := "Manual bounty created." } 1000000 (by decide) (by decide) (by decide)
      (by decide) (by decide) (by decide) (by decide) (by decide)).2 999999
  · exact c8_warning_one_shot.2.2.2 [demoWarnedBountyRec] noTimers "b2" 100
      demoWarnedBountyRec (by decide) (by decide)

theorem endRequestEarly_wrongStatus {s : Store} {tm : Timers} {id actor : String} {now : Nat}
    {r : Request} (hf : findReq s id = some r) (hst : r.status ≠ Status.approved) :
    endRequestEarly s tm id actor now = (s, tm, [], EndEarlyOutcome.wrongStatus r.status) := by
  unfold endRequestEarly
  rw [hf]
  dsimp only
  rw [if_pos (by simp [hst])]

theorem endRequestEarly_approved_eq {s : Store} {tm : Timers} {id actor : String} {now : Nat}
    {r : Request} (hf : findReq s id = some r) (hst : r.status = Status.approved) :
    endRequestEarly s tm id actor now =
      (putReq (putReq s (endedRec r actor now)) (endedRecAnn r actor now),
       scheduleBountyExpiryWarning (putReq s (endedRec r actor now))
         (scheduleBountyExpiry (putReq s (endedRec r actor now))
           { tm with wfExpiry := cancelT tm.wfExpiry id } id now) id now,
       [Notice.openSeason id, Notice.bountyIssued id], EndEarlyOutcome.ended) := by
  unfold endRequestEarly
  rw [hf]
  dsimp only
  rw [if_neg (by simp [hst])]

theorem hasActiveBounty_endedRec (r : Request) (actor : String) (now : Nat) :
    hasActiveBounty (endedRec r actor now) now = true := by
  unfold hasActiveBounty endedRec
  dsimp only
  rw [Bool.and_eq_true]
  refine ⟨rfl, ?_⟩
  simp only [decide_eq_true_eq]
  have hW : ONE_WEEK_MS = 604800000 := by norm_num [ONE_WEEK_MS]
  omega

-- ---------------------------------------------------------------------------
-- Claim C6
-- ---------------------------------------------------------------------------

/-- C6: ending a request early requires status approved and otherwise fails
with a reply carrying the current status.  On success the persisted record
has status ended_early with the endedEarlyAt/By audit fields, carries a
Bounty with active = true, startedAt = t and endsAt = t + 604800000 in the
same transition, and the bounty expiry and bounty warning timers are armed
(the warning, as always, only for a record whose bounty warning marker is
unset, which holds for every record that reached approved status). -/
theorem c6_end_request_early :
    (∀ (s : Store) (tm : Timers) (id actor : String) (t : Nat) (r : Request),
      findReq s id = some r → r.status ≠ Status.approved →
      endRequestEarly s tm id actor t = (s, tm, [], EndEarlyOutcome.wrongStatus r.status)) ∧
    (∀ (s : Store) (tm : Timers) (id actor : String) (t : Nat) (r : Request),
      findReq s id = some r → r.status = Status.approved →
      jsTruthyNat r.bountyWarnedAt = false →
      findReq (endRequestEarly s tm id actor t).1 id = some (endedRecAnn r actor t) ∧
      (endedRecAnn r actor t).status = Status.ended_early ∧
      (endedRecAnn r actor t).endedEarlyAt = some t ∧
      (endedRecAnn r actor t).endedEarlyBy = some actor ∧
      (∃ b : Bounty, (endedRecAnn r actor t).bounty = some b ∧ b.active = true ∧
        b.startedAt = t ∧ b.endsAt = some (t + 604800000)) ∧
      id ∈ (endRequestEarly s tm id actor t).2.1.bountyExpiry ∧
      id ∈ (endRequestEarly s tm id actor t).2.1.bountyWarn) := by
  constructor
  · intro s tm id actor t r hf hst
    exact endRequestEarly_wrongStatus hf hst
  · intro s tm id actor t r hf hst hw
    obtain ⟨hmem, hid⟩ := findReq_eq_some_mem hf
    have hE := @endRequestEarly_approved_eq s tm id actor t r hf hst
    have hSome : (findReq s id).isSome := by rw [hf]; rfl
    have hid2 : (endedRec r actor t).id = id := hid
    have hfind2 : findReq (putReq s (endedRec r actor t)) id = some (endedRec r actor t) :=
      findReq_putReq_self hSome hid2
    have hSome2 : (findReq (putReq s (endedRec r actor t)) id).isSome := by rw [hfind2]; rfl
    have hid3 : (endedRecAnn r actor t).id = id := hid
    have hfind3 : findReq (putReq (putReq s (endedRec r actor t)) (endedRecAnn r actor t)) id
        = some (endedRecAnn r actor t) := findReq_putReq_self hSome2 hid3
    have hab : hasActiveBounty (endedRec r actor t) t = true := hasActiveBounty_endedRec r actor t
    refine ⟨?_, rfl, rfl, rfl, ⟨_, rfl, rfl, rfl, ?_⟩, ?_, ?_⟩
    · rw [hE]
      exact hfind3
    · show some (t + ONE_WEEK_MS) = some (t + 604800000)
      norm_num [ONE_WEEK_MS]
    · rw [hE]
      dsimp only
      rw [(scheduleBountyExpiryWarning_other_fields _ _ _ _).2.2,
        scheduleBountyExpiry_arms hfind2 hab]
      exact armT_mem _ _
    · rw [hE]
      dsimp only
      rw [scheduleBountyExpiryWarning_arms hfind2 hab hw]
      exact armT_mem _ _

/-- C6 witness: ending the denied r2 early is refused naming status denied;
ending the approved r1 early at t1 = 100000 persists ended_early with a
bounty window 100000 .. 704800000 and arms both bounty timers. -/
theorem c6_end_request_early_witness :
    endRequestEarly [demoDenied] noTimers "r2" "adm" 1000
      = ([demoDenied], noTimers, [], EndEarlyOutcome.wrongStatus Status.denied) ∧
    (findReq (endRequestEarly [demoApproved] noTimers "r1" "adm" 100000).1 "r1"
        = some (endedRecAnn demoApproved "adm" 100000) ∧
     (endedRecAnn demoApproved "adm" 100000).status = Status.ended_early ∧
     (endedRecAnn demoApproved "adm" 100000).endedEarlyAt = some 100000 ∧
     (endedRecAnn demoApproved "adm" 100000).endedEarlyBy = some "adm" ∧
     (∃ b : Bounty, (endedRecAnn demoApproved "adm" 100000).bounty = some b ∧
       b.active = true ∧ b.startedAt = 100000 ∧ b.endsAt = some (100000 + 604800000)) ∧
     "r1" ∈ (endRequestEarly [demoApproved] noTimers "r1" "adm" 100000).2.1.bountyExpiry ∧
     "r1" ∈ (endRequestEarly [demoApproved] noTimers "r1" "adm" 100000).2.1.bountyWarn) :=
  ⟨c6_end_request_early.1 [demoDenied] noTimers "r2" "adm" 1000 demoDenied (by decide)
      (by decide),
   c6_end_request_early.2 [demoApproved] noTimers "r1" "adm" 100000 demoApproved (by decide)
      (by decide) (by decide)⟩

-- ---------------------------------------------------------------------------
-- Claim C4
-- ---------------------------------------------------------------------------

/-- C4 counterexample to the claim as stated: with every timer of r1 armed,
the end-early transition changes the status to ended_early yet the
white-flag warning timer for r1 is still armed afterwards — the transition
cancels only the expiry timer, so a timer stays armed for a record whose
active window has ended. -/
theorem c4_stale_warning_timer_counterexample :
    (endRequestEarly [demoApproved] demoTimersAll "r1" "adm" 1000).2.1.wfWarn = ["r1"] ∧
    (findReq (endRequestEarly [demoApproved] demoTimersAll "r1" "adm" 1000).1 "r1").map
        Request.status = some Status.ended_early ∧
    (removeBounty [demoBountyRec] demoTimersAll "" "b1" "adm" 700).2.1.bountyWarn = ["b1"] ∧
    (findReq (removeBounty [demoBountyRec] demoTimersAll "" "b1" "adm" 700).1 "b1").map
        (fun r => r.bounty.map Bounty.active) = some (some false) := by
  refine ⟨?_, ?_, ?_, ?_⟩ <;> decide

/-- C4 amended: of the operations that end an active window, only claim
approval cancels both of the record's timers.  End-early cancels the
white-flag expiry timer but leaves the white-flag warning timer exactly as
it was, and bounty removal cancels the bounty expiry timer but leaves the
bounty warning timer exactly as it was. -/
theorem c4_cancellation_per_operation :
    (∀ (s : Store) (tm : Timers) (id actor : String) (t : Nat) (r : Request),
      findReq s id = some r → r.status = Status.approved →
      id ∉ (endRequestEarly s tm id actor t).2.1.wfExpiry ∧
      (endRequestEarly s tm id actor t).2.1.wfWarn = tm.wfWarn) ∧
    (∀ (s : Store) (tm : Timers) (idArg actor : String) (t : Nat) (r : Request) (b : Bounty),
      idArg ≠ "" → findReq s idArg = some r → r.bounty = some b → b.active = true →
      (removeBounty s tm "" idArg actor t).2.1.bountyExpiry = cancelT tm.bountyExpiry r.id ∧
      (removeBounty s tm "" idArg actor t).2.1.bountyWarn = tm.bountyWarn) ∧
    (∀ (s : Store) (cs : Claims) (tm : Timers) (claimId actor : String) (t : Nat)
       (c : Claim) (r : Request) (b : Bounty),
      findClaim cs claimId = some c → c.status = ClaimStatus.pending →
      findReq s c.bountyRecordId = some r → r.bounty = some b →
      r.id ∉ (approveClaim s cs tm claimId actor t).2.2.1.bountyExpiry ∧
      r.id ∉ (approveClaim s cs tm claimId actor t).2.2.1.bountyWarn) := by
  refine ⟨?_, ?_, ?_⟩
  · intro s tm id actor t r hf hst
    have hE := @endRequestEarly_approved_eq s tm id actor t r hf hst
    constructor
    · rw [hE]
      dsimp only
      rw [(scheduleBountyExpiryWarning_other_fields _ _ _ _).1,
        (scheduleBountyExpiry_other_fields _ _ _ _).1]
      exact cancelT_not_mem _ _
    · rw [hE]
      dsimp only
      rw [(scheduleBountyExpiryWarning_other_fields _ _ _ _).2.1,
        (scheduleBountyExpiry_other_fields _ _ _ _).2.1]
  · intro s tm idArg actor t r b hidne hf hb hact
    unfold removeBounty
    rw [if_neg (by simp [hidne])]
    rw [if_pos hidne, hf]
    dsimp only
    rw [hb]
    dsimp only
    rw [if_neg (by simp [hact])]
    exact ⟨rfl, rfl⟩
  · intro s cs tm claimId actor t c r b hfc hcst hfr hb
    unfold approveClaim
    rw [hfc]
    dsimp only
    rw [if_neg (by simp [hcst])]
    rw [hfr]
    dsimp only
    rw [hb]
    dsimp only
    exact ⟨cancelT_not_mem _ _, cancelT_not_mem _ _⟩

/-- C4 witness: the amended cancellation behavior evaluated on r1 (end
early), b1 (bounty removal), and the pending claim c0 (claim approval),
each starting with every timer armed. -/
theorem c4_cancellation_per_operation_witness :
    ("r1" ∉ (endRequestEarly [demoApproved] demoTimersAll "r1" "adm" 1000).2.1.wfExpiry ∧
     (endRequestEarly [demoApproved] demoTimersAll "r1" "adm" 1000).2.1.wfWarn
       = demoTimersAll.wfWarn) ∧
    ((removeBounty [demoBountyRec] demoTimersAll "" "b1" "adm" 700).2.1.bountyExpiry
       = cancelT demoTimersAll.bountyExpiry "b1" ∧
     (removeBounty [demoBountyRec] demoTimersAll "" "b1" "adm" 700).2.1.bountyWarn
       = demoTimersAll.bountyWarn) ∧
    ("b1" ∉ (approveClaim [demoBountyRec] [demoPendingClaim] demoTimersAll "c0" "adm"
        800).2.2.1.bountyExpiry ∧
     "b1" ∉ (approveClaim [demoBountyRec] [demoPendingClaim] demoTimersAll "c0" "adm"
        800).2.2.1.bountyWarn) :=
  ⟨c4_cancellation_per_operation.1 [demoApproved] demoTimersAll "r1" "adm" 1000 demoApproved
      (by decide) (by decide),
   c4_cancellation_per_operation.2.1 [demoBountyRec] demoTimersAll "b1" "adm" 700 demoBountyRec
      { active := true, startedAt := 50, endsAt := some 1000000, startedBy := "adm",
        reason := "Manual bounty created." } (by decide) (by decide) (by decide) (by decide),
   c4_cancellation_per_operation.2.2 [demoBountyRec] [demoPendingClaim] demoTimersAll "c0"
      "adm" 800 demoPendingClaim demoBountyRec
      { active := true, startedAt := 50, endsAt := some 1000000, startedBy := "adm",
        reason := "Manual bounty created." } (by decide) (by decide) (by decide) (by decide)⟩

theorem putReq_length_present {s : Store} {r : Request}
    (h : s.any (fun x => x.id == r.id) = true) : (putReq s r).length = s.length := by
  unfold putReq
  rw [if_pos h]
  exact List.length_map _ _

theorem hasActiveBounty_newBountyRecord (tribe ign server reason actor fresh : String)
    (now : Nat) :
    hasActiveBounty (newBountyRecord tribe ign server reason actor fresh now) now = true := by
  unfold hasActiveBounty newBountyRecord
  dsimp only
  rw [Bool.and_eq_true]
  refine ⟨rfl, ?_⟩
  simp only [decide_eq_true_eq]
  have hW : ONE_WEEK_MS = 604800000 := by norm_num [ONE_WEEK_MS]
  omega

theorem hasActiveBounty_refreshedRec (ex : Request) (ign server reason actor : String)
    (now : Nat) :
    hasActiveBounty (refreshedRec ex ign server reason actor now) now = true := by
  unfold hasActiveBounty refreshedRec refreshedBounty
  dsimp only
  rw [Bool.and_eq_true]
  refine ⟨rfl, ?_⟩
  simp only [decide_eq_true_eq]
  have hW : ONE_WEEK_MS = 604800000 := by norm_num [ONE_WEEK_MS]
  omega

theorem bountyAdd_new_eq {s : Store} {tm : Timers} {tribe ign server reason actor fresh : String}
    {now : Nat} (hg : getActiveBountyForTribe s tribe none now = none)
    (hfresh : ∀ x ∈ s, x.id ≠ fresh) :
    bountyAdd s tm tribe ign server reason actor fresh now
      = (s ++ [newBountyRecord tribe ign server reason actor fresh now],
         ⟨tm.wfExpiry, tm.wfWarn, armT tm.bountyExpiry fresh, armT tm.bountyWarn fresh⟩,
         [Notice.bountyIssued fresh], Except.error JsErr.referenceErrorReq) := by
  have hput : putReq s (newBountyRecord tribe ign server reason actor fresh now)
      = s ++ [newBountyRecord tribe ign server reason actor fresh now] :=
    putReq_of_fresh (fun x hx => hfresh x hx)
  have hfind : findReq (s ++ [newBountyRecord tribe ign server reason actor fresh now]) fresh
      = some (newBountyRecord tribe ign server reason actor fresh now) :=
    findReq_append_fresh (fun x hx => hfresh x hx)
  have hab := hasActiveBounty_newBountyRecord tribe ign server reason actor fresh now
  unfold bountyAdd
  rw [hg]
  dsimp only
  rw [hput]
  have h1 : scheduleBountyExpiry
      (s ++ [newBountyRecord tribe ign server reason actor fresh now]) tm fresh now
      = { tm with bountyExpiry := armT tm.bountyExpiry fresh } := by
    unfold scheduleBountyExpiry
    rw [hfind]
    dsimp only
    rw [if_pos hab]
  have h2 : scheduleBountyExpiryWarning
      (s ++ [newBountyRecord tribe ign server reason actor fresh now])
      { tm with bountyExpiry := armT tm.bountyExpiry fresh } fresh now
      = ⟨tm.wfExpiry, tm.wfWarn, armT tm.bountyExpiry fresh, armT tm.bountyWarn fresh⟩ := by
    unfold scheduleBountyExpiryWarning
    rw [hfind]
    dsimp only
    rw [if_neg (by simp [hab])]
    rw [if_neg (by simp [newBountyRecord, jsTruthyNat])]
  rw [h1, h2]

theorem bountyAdd_refresh_eq {s : Store} {tm : Timers}
    {tribe ign server reason actor fresh : String} {now : Nat} {ex : Request}
    (hg : getActiveBountyForTribe s tribe none now = some ex) :
    bountyAdd s tm tribe ign server reason actor fresh now
      = (putReq s (refreshedRec ex ign server reason actor now),
         scheduleBountyExpiryWarning (putReq s (refreshedRec ex ign server reason actor now))
           (scheduleBountyExpiry (putReq s (refreshedRec ex ign server reason actor now))
             tm ex.id now) ex.id now,
         [], Except.ok ex.id) := by
  unfold bountyAdd
  rw [hg]

theorem findReq_isSome_of_mem {s : Store} {r : Request} (h : r ∈ s) :
    (findReq s r.id).isSome := by
  induction s with
  | nil => cases h
  | cons x xs ih =>
    unfold findReq
    by_cases hx : x.id = r.id
    · rw [List.find?_cons_of_pos _ (by simp [hx])]
      rfl
    · rw [List.find?_cons_of_neg _ (by simp [hx])]
      rcases List.mem_cons.mp h with rfl | hmem
      · exact absurd rfl hx
      · exact ih hmem

-- ---------------------------------------------------------------------------
-- Claim C5
-- ---------------------------------------------------------------------------

/-- C5 amended: /bounty add with an existing active bounty refreshes that
record in place — endsAt becomes now + 7d, the store keeps its size, no new
record appears — and with no existing active bounty creates a bounty_only
record with a fresh one-week active bounty.  The bounty expiry timer is
armed in both cases; the bounty warning timer is armed except that
refreshing a record whose bounty warned-at marker is already set does not
arm it (the one-shot warning guard in the scheduler). -/
theorem c5_bounty_add_or_refresh :
    (∀ (s : Store) (tm : Timers) (tribe ign server reason actor fresh : String) (now : Nat)
       (ex : Request),
      getActiveBountyForTribe s tribe none now = some ex →
      (∃ b2 : Bounty,
        findReq (bountyAdd s tm tribe ign server reason actor fresh now).1 ex.id
          = some (refreshedRec ex ign server reason actor now) ∧
        (refreshedRec ex ign server reason actor now).bounty = some b2 ∧
        b2.active = true ∧ b2.endsAt = some (now + 604800000)) ∧
      (bountyAdd s tm tribe ign server reason actor fresh now).1.length = s.length ∧
      ex.id ∈ (bountyAdd s tm tribe ign server reason actor fresh now).2.1.bountyExpiry ∧
      (jsTruthyNat ex.bountyWarnedAt = false →
        ex.id ∈ (bountyAdd s tm tribe ign server reason actor fresh now).2.1.bountyWarn) ∧
      (jsTruthyNat ex.bountyWarnedAt = true →
        (bountyAdd s tm tribe ign server reason actor fresh now).2.1.bountyWarn
          = tm.bountyWarn)) ∧
    (∀ (s : Store) (tm : Timers) (tribe ign server reason actor fresh : String) (now : Nat),
      getActiveBountyForTribe s tribe none now = none → (∀ x ∈ s, x.id ≠ fresh) →
      (bountyAdd s tm tribe ign server reason actor fresh now).1
        = s ++ [newBountyRecord tribe ign server reason actor fresh now] ∧
      findReq (bountyAdd s tm tribe ign server reason actor fresh now).1 fresh
        = some (newBountyRecord tribe ign server reason actor fresh now) ∧
      (newBountyRecord tribe ign server reason actor fresh now).status = Status.bounty_only ∧
      (∃ b : Bounty,
        (newBountyRecord tribe ign server reason actor fresh now).bounty = some b ∧
        b.active = true ∧ b.startedAt = now ∧ b.endsAt = some (now + 604800000)) ∧
      fresh ∈ (bountyAdd s tm tribe ign server reason actor fresh now).2.1.bountyExpiry ∧
      fresh ∈ (bountyAdd s tm tribe ign server reason actor fresh now).2.1.bountyWarn) := by
  constructor
  · intro s tm tribe ign server reason actor fresh now ex hg
    have hmem : ex ∈ s := by
      unfold getActiveBountyForTribe at hg
      exact List.mem_of_find?_eq_some hg
    have hSome : (findReq s ex.id).isSome := findReq_isSome_of_mem hmem
    have hidr : (refreshedRec ex ign server reason actor now).id = ex.id := rfl
    have hfind2 : findReq (putReq s (refreshedRec ex ign server reason actor now)) ex.id
        = some (refreshedRec ex ign server reason actor now) :=
      findReq_putReq_self hSome hidr
    have hE := @bountyAdd_refresh_eq s tm tribe ign server reason actor fresh now ex hg
    have hab := hasActiveBounty_refreshedRec ex ign server reason actor now
    refine ⟨⟨_, ?_, rfl, rfl, ?_⟩, ?_, ?_, ?_, ?_⟩
    · rw [hE]
      exact hfind2
    · show some (now + ONE_WEEK_MS) = some (now + 604800000)
      norm_num [ONE_WEEK_MS]
    · rw [hE]
      dsimp only
      apply putReq_length_present
      exact any_id_of_findReq_isSome hSome
    · rw [hE]
      dsimp only
      rw [(scheduleBountyExpiryWarning_other_fields _ _ _ _).2.2,
        scheduleBountyExpiry_arms hfind2 hab]
      exact armT_mem _ _
    · intro hw
      rw [hE]
      dsimp only
      rw [scheduleBountyExpiryWarning_arms hfind2 hab hw]
      exact armT_mem _ _
    · intro hw
      rw [hE]
      dsimp only
      rw [scheduleBountyExpiryWarning_skips_warned hfind2 hw]
      exact (scheduleBountyExpiry_other_fields _ _ _ _).2.2
  · intro s tm tribe ign server reason actor fresh now hg hfresh
    have hE := @bountyAdd_new_eq s tm tribe ign server reason actor fresh now hg hfresh
    refine ⟨by rw [hE], ?_, rfl, ⟨_, rfl, rfl, rfl, ?_⟩, ?_, ?_⟩
    · rw [hE]
      exact findReq_append_fresh (fun x hx => hfresh x hx)
    · show some (now + ONE_WEEK_MS) = some (now + 604800000)
      norm_num [ONE_WEEK_MS]
    · rw [hE]
      exact armT_mem _ _
    · rw [hE]
      exact armT_mem _ _

/-- C5 counterexample to the claim as stated: refreshing the bounty of b2,
whose 24h warning already fired (bountyWarnedAt set), updates endsAt to
now + 7d and arms the expiry timer, but the bounty warning timer table
stays empty — the warning timer is not armed, contradicting the claimed
"in both cases the bounty expiry and warning timers are armed". -/
theorem c5_refresh_warned_counterexample :
    bountyAdd [demoWarnedBountyRec] noTimers "Rogues" "" "" "" "adm" "z9" 1000
      = ([refreshedRec demoWarnedBountyRec "" "" "" "adm" 1000],
         ⟨[], [], ["b2"], []⟩, [], Except.ok "b2") := by
  decide

/-- C5 witness: refreshing the unwarned b1 arms both bounty timers and
keeps the store size; creating a bounty for a tribe with no active bounty
persists the new record and arms both timers. -/
theorem c5_bounty_add_or_refresh_witness :
    "b1" ∈ (bountyAdd [demoBountyRec] noTimers "Raiders" "" "" "" "adm" "z8" 700).2.1.bountyExpiry ∧
    "b1" ∈ (bountyAdd [demoBountyRec] noTimers "Raiders" "" "" "" "adm" "z8" 700).2.1.bountyWarn ∧
    (bountyAdd [demoBountyRec] noTimers "Raiders" "" "" "" "adm" "z8" 700).1.length = 1 ∧
    findReq (bountyAdd [] noTimers "Newbies" "" "" "" "adm" "n7" 50).1 "n7"
      = some (newBountyRecord "Newbies" "" "" "" "adm" "n7" 50) ∧
    "n7" ∈ (bountyAdd [] noTimers "Newbies" "" "" "" "adm" "n7" 50).2.1.bountyWarn := by
  have h1 := c5_bounty_add_or_refresh.1 [demoBountyRec] noTimers "Raiders" "" "" "" "adm"
    "z8" 700 demoBountyRec (by decide)
  have h2 := c5_bounty_add_or_refresh.2 [] noTimers "Newbies" "" "" "" "adm" "n7" 50
    (by decide) (by simp)
  exact ⟨h1.2.2.1, h1.2.2.2.1 (by decide), by rw [h1.2.1]; rfl, h2.2.1, h2.2.2.2.2.2⟩

-- ---------------------------------------------------------------------------
-- Claim C10
-- ---------------------------------------------------------------------------

/-- C10: the create branch of /bounty add is not atomic on error.  With the
announcement channel configured and reachable, the handler persists the new
record with its active bounty, arms both bounty timers, and posts the
announcement, and then throws the ReferenceError (the source reads the
unbound variables req and requestId), so the announcement reference is
never stored on the record (both reference fields stay absent) and the
invoker never receives the success reply — the outcome is the thrown error
while all the state changes survive. -/
theorem c10_bounty_add_create_not_atomic :
    ∀ (s : Store) (tm : Timers) (tribe ign server reason actor fresh : String) (now : Nat),
      getActiveBountyForTribe s tribe none now = none → (∀ x ∈ s, x.id ≠ fresh) →
      (bountyAdd s tm tribe ign server reason actor fresh now).2.2.2
        = Except.error JsErr.referenceErrorReq ∧
      (bountyAdd s tm tribe ign server reason actor fresh now).2.2.1
        = [Notice.bountyIssued fresh] ∧
      (bountyAdd s tm tribe ign server reason actor fresh now).1
        = s ++ [newBountyRecord tribe ign server reason actor fresh now] ∧
      (∃ b : Bounty,
        (newBountyRecord tribe ign server reason actor fresh now).bounty = some b ∧
        b.active = true ∧ b.startedAt = now ∧ b.endsAt = some (now + ONE_WEEK_MS) ∧
        b.announceChannelId = none ∧ b.announceMessageId = none) ∧
      fresh ∈ (bountyAdd s tm tribe ign server reason actor fresh now).2.1.bountyExpiry ∧
      fresh ∈ (bountyAdd s tm tribe ign server reason actor fresh now).2.1.bountyWarn := by
  intro s tm tribe ign server reason actor fresh now hg hfresh
  have hE := @bountyAdd_new_eq s tm tribe ign server reason actor fresh now hg hfresh
  exact ⟨by rw [hE], by rw [hE], by rw [hE], ⟨_, rfl, rfl, rfl, rfl, rfl, rfl⟩,
    by rw [hE]; exact armT_mem _ _, by rw [hE]; exact armT_mem _ _⟩

/-- C10 witness: creating a bounty for a tribe with no active bounty in a
store that already holds r1: the handler ends in the ReferenceError, yet
the new record q1 is persisted, announced, and its timers are armed. -/
theorem c10_bounty_add_create_not_atomic_witness :
    (bountyAdd [demoApproved] noTimers "Newtribe" "TgtIGN" "25x PVP" "test" "adm" "q1"
        5000).2.2.2 = Except.error JsErr.referenceErrorReq ∧
    (bountyAdd [demoApproved] noTimers "Newtribe" "TgtIGN" "25x PVP" "test" "adm" "q1"
        5000).2.2.1 = [Notice.bountyIssued "q1"] ∧
    (bountyAdd [demoApproved] noTimers "Newtribe" "TgtIGN" "25x PVP" "test" "adm" "q1"
        5000).1
      = [demoApproved] ++ [newBountyRecord "Newtribe" "TgtIGN" "25x PVP" "test" "adm" "q1" 5000] ∧
    "q1" ∈ (bountyAdd [demoApproved] noTimers "Newtribe" "TgtIGN" "25x PVP" "test" "adm" "q1"
        5000).2.1.bountyExpiry ∧
    "q1" ∈ (bountyAdd [demoApproved] noTimers "Newtribe" "TgtIGN" "25x PVP" "test" "adm" "q1"
        5000).2.1.bountyWarn := by
  have h := c10_bounty_add_create_not_atomic [demoApproved] noTimers "Newtribe" "TgtIGN"
    "25x PVP" "test" "adm" "q1" 5000 (by decide) (by decide)
  exact ⟨h.1, h.2.1, h.2.2.1, h.2.2.2.2.1, h.2.2.2.2.2⟩

-- ---------------------------------------------------------------------------
-- Claim C2
-- ---------------------------------------------------------------------------

/-- C2 counterexample to the claim as stated: two successive claim
submissions against the same active bounty both succeed — the second caller
gets the success outcome rather than a conflict — and afterwards two
pending claims exist for the record.  There is no locking: the handler does
not even return a requests store (it never writes one), and the Bounty
record of the data model has no locked or lockedByClaimId field to set. -/
theorem c2_no_claim_lock_counterexample :
    (submitClaim [demoBountyRec] [] "b1" "u1" "ignA" "tgt" "clip" "c1" 500).2.2
      = SubmitClaimOutcome.ok "c1" ∧
    (submitClaim [demoBountyRec]
        (submitClaim [demoBountyRec] [] "b1" "u1" "ignA" "tgt" "clip" "c1" 500).1
        "b1" "u2" "ignB" "tgt" "clip2" "c2" 600).2.2
      = SubmitClaimOutcome.ok "c2" ∧
    pendingClaimsFor
        (submitClaim [demoBountyRec]
          (submitClaim [demoBountyRec] [] "b1" "u1" "ignA" "tgt" "clip" "c1" 500).1
          "b1" "u2" "ignB" "tgt" "clip2" "c2" 600).1 "b1" = 2 := by
  refine ⟨?_, ?_, ?_⟩ <;> decide

/-- C2 amended: submitting a claim requires only that the referenced record
still carry an active bounty and fails with the not-active reply otherwise;
on success it files a Claim with status pending and posts of the admin
ticket, but it takes no lock: the requests store is not modified (the
handler does not output one and the data model has no locked or
lockedByClaimId fields), so a second submission against the same active
bounty also succeeds and any number of pending claims can pile up. -/
theorem c2_submit_claim_no_lock :
    (∀ (s : Store) (cs : Claims) (recordId user ign bountyIgn proofRaw fresh : String)
       (now : Nat) (r : Request),
      findReq s recordId = some r → hasActiveBounty r now = true →
      ign ≠ "" → bountyIgn ≠ "" →
      submitClaim s cs recordId user ign bountyIgn proofRaw fresh now
        = (putClaim cs
            { id := fresh, bountyRecordId := r.id, tribeName := r.tribeName,
              reward := BOUNTY_REWARD, submittedBy := user, submittedAt := now,
              claimantIgn := some ign, bountyTargetIgn := some bountyIgn,
              proof := if proofRaw = "" then "N/A" else proofRaw,
              status := ClaimStatus.pending },
           [Notice.claimTicket fresh], SubmitClaimOutcome.ok fresh)) ∧
    (∀ (s : Store) (cs : Claims) (recordId user ign bountyIgn proofRaw fresh : String)
       (now : Nat) (r : Request),
      findReq s recordId = some r → hasActiveBounty r now = false →
      submitClaim s cs recordId user ign bountyIgn proofRaw fresh now
        = (cs, [], SubmitClaimOutcome.notActive)) ∧
    (∀ (s : Store) (cs : Claims) (recordId user1 user2 ign1 ign2 bIgn1 bIgn2 p1 p2 f1 f2 :
        String) (t1 t2 : Nat) (r : Request),
      findReq s recordId = some r → hasActiveBounty r t1 = true →
      hasActiveBounty r t2 = true → ign1 ≠ "" → bIgn1 ≠ "" → ign2 ≠ "" → bIgn2 ≠ "" →
      (submitClaim s (submitClaim s cs recordId user1 ign1 bIgn1 p1 f1 t1).1
          recordId user2 ign2 bIgn2 p2 f2 t2).2.2 = SubmitClaimOutcome.ok f2) := by
  refine ⟨?_, ?_, ?_⟩
  · intro s cs recordId user ign bountyIgn proofRaw fresh now r hf hab hi hb
    unfold submitClaim
    rw [hf]
    dsimp only
    rw [if_neg (by simp [hab])]
    rw [if_neg (by simp [hi, hb])]
  · intro s cs recordId user ign bountyIgn proofRaw fresh now r hf hab
    unfold submitClaim
    rw [hf]
    dsimp only
    rw [if_pos (by simp [hab])]
  · intro s cs recordId user1 user2 ign1 ign2 bIgn1 bIgn2 p1 p2 f1 f2 t1 t2 r hf hab1 hab2
      hi1 hb1 hi2 hb2
    unfold submitClaim
    rw [hf]
    dsimp only
    rw [if_neg (by simp [hab2])]
    rw [if_neg (by simp [hi2, hb2])]

/-- C2 witness: the amended behavior on b1 (submission succeeds and files a
pending claim without touching the requests store), on the overdue b3
(submission refused because the bounty is no longer active), and the
two-in-a-row success. -/
theorem c2_submit_claim_no_lock_witness :
    submitClaim [demoBountyRec] [] "b1" "u1" "ignA" "tgt" "" "c1" 500
      = ([{ id := "c1", bountyRecordId := "b1", tribeName := "Raiders",
            reward := BOUNTY_REWARD, submittedBy := "u1", submittedAt := 500,
            claimantIgn := some "ignA", bountyTargetIgn := some "tgt", proof := "N/A",
            status := ClaimStatus.pending }],
         [Notice.claimTicket "c1"], SubmitClaimOutcome.ok "c1") ∧
    submitClaim [demoOverdueBountyRec] [] "b3" "u1" "ignA" "tgt" "clip" "c9" 900
      = ([], [], SubmitClaimOutcome.notActive) ∧
    (submitClaim [demoBountyRec] (submitClaim [demoBountyRec] [] "b1" "u1" "ignA" "tgt"
        "clip" "c1" 500).1 "b1" "u2" "ignB" "tgt" "clip2" "c2" 600).2.2
      = SubmitClaimOutcome.ok "c2" := by
  refine ⟨?_, ?_, ?_⟩
  · have h := c2_submit_claim_no_lock.1 [demoBountyRec] [] "b1" "u1" "ignA" "tgt" "" "c1"
      500 demoBountyRec (by decide) (by decide) (by decide) (by decide)
    rw [h]
    rfl
  · exact c2_submit_claim_no_lock.2.1 [demoOverdueBountyRec] [] "b3" "u1" "ignA" "tgt"
      "clip" "c9" 900 demoOverdueBountyRec (by decide) (by decide)
  · exact c2_submit_claim_no_lock.2.2 [demoBountyRec] [] "b1" "u1" "u2" "ignA" "ignB" "tgt"
      "tgt" "clip" "clip2" "c1" "c2" 500 600 demoBountyRec (by decide) (by decide)
      (by decide) (by decide) (by decide) (by decide) (by decide)
